import Mathlib

set_option maxHeartbeats 1000000

/-
A shallow embedding of the `norms` project-verification tool.

The filesystem and the structured-config parsers are the external
boundary of the tool; they are modelled by the record `PyFS` below.
Mutation of the single `VerificationReport` instance is modelled by
explicit state passing.  Dynamic-typing failures of the host language
(attribute errors, type errors) are modelled with the `Except` monad,
so that a check that can crash at runtime is a function that can
return `Except.error`.  String messages follow the source up to
punctuation (quote characters are elided).
-/

namespace Norms

/-- Enumeration of check statuses, from `models.Status`. -/
inductive Status where
| PASS
| FAIL
| WARN
| SKIP
deriving DecidableEq

/-- Enumeration of supported programming languages, from `models.Language`. -/
inductive Language where
| CPP
| PYTHON
| RUST
| TYPESCRIPT
deriving DecidableEq

/-- Result of a single check, from `models.CheckResult`. -/
structure CheckResult where
  name : String
  status : Status
  message : String
deriving DecidableEq

/-- Report of the verification process, from `models.VerificationReport`. -/
structure Report where
  project_path : String
  languages : List Language
  results : List CheckResult
deriving DecidableEq

/-- `VerificationReport.add`: append a check result to the report. -/
def Report.add (r : Report) (name : String) (status : Status) (message : String) : Report :=
  { r with results := r.results ++ [⟨name, status, message⟩] }

/-- `VerificationReport.passed`: the number of PASS results. -/
def Report.passed (r : Report) : Nat :=
  r.results.countP (fun x => x.status == Status.PASS)

/-- `VerificationReport.failed`: the number of FAIL results. -/
def Report.failed (r : Report) : Nat :=
  r.results.countP (fun x => x.status == Status.FAIL)

/-- `VerificationReport.warnings`: the number of WARN results. -/
def Report.warnings (r : Report) : Nat :=
  r.results.countP (fun x => x.status == Status.WARN)

/-- Number of results in a report carrying a given name. -/
def countName (r : Report) (n : String) : Nat :=
  r.results.countP (fun x => x.name == n)

/-- Number of results in a report carrying a given name and status. -/
def countNameStatus (r : Report) (n : String) (s : Status) : Nat :=
  r.results.countP (fun x => x.name == n && x.status == s)

/-- Runtime faults of the host language that a check body can raise. -/
inductive PyErr where
| attributeError
| typeError
deriving DecidableEq

/-- Structured data values produced by the JSON and TOML parsers. -/
inductive Value where
| null : Value
| bool : Bool → Value
| num : Int → Value
| str : String → Value
| list : List Value → Value
| dict : List (String × Value) → Value

/-- Truthiness of a parsed value, as the host language evaluates it. -/
def truthy : Value → Bool
| Value.null => false
| Value.bool b => b
| Value.num n => n != 0
| Value.str s => s != ""
| Value.list xs => !xs.isEmpty
| Value.dict kvs => !kvs.isEmpty

/-- First-match lookup in an association list (parsed mappings have unique keys). -/
def lookupKV : List (String × Value) → String → Option Value
| [], _ => none
| (k2, v) :: rest, k => if k2 == k then some v else lookupKV rest k

/-- `v.get(k, dflt)`: mapping lookup with default; raises AttributeError when
`v` is not a mapping, exactly as the host language does. -/
def pyGet (v : Value) (k : String) (dflt : Value) : Except PyErr Value :=
  match v with
  | Value.dict kvs =>
    match lookupKV kvs k with
    | some x => Except.ok x
    | none => Except.ok dflt
  | _ => Except.error PyErr.attributeError

/-- Does the character list `needle` occur at the head of `hay`? -/
def leadMatch : List Char → List Char → Bool
| [], _ => true
| _ :: _, [] => false
| a :: as, b :: bs => a == b && leadMatch as bs

/-- Does `needle` occur anywhere in `hay` (as character lists)? -/
def hasSubL (needle : List Char) (hay : List Char) : Bool :=
  match hay with
  | [] => needle.isEmpty
  | _ :: rest => leadMatch needle hay || hasSubL needle rest

/-- `needle in hay` on strings: substring containment. -/
def strHasSub (hay needle : String) : Bool :=
  hasSubL needle.toList hay.toList

/-- `needle in container` where `needle` is a string literal: key membership
for mappings, element equality for lists, substring for strings; TypeError on
values that do not support the containment protocol. -/
def pyInStr (needle : String) (container : Value) : Except PyErr Bool :=
  match container with
  | Value.dict kvs => Except.ok (kvs.any (fun kv => kv.1 == needle))
  | Value.list xs =>
    Except.ok (xs.any (fun x => match x with | Value.str t => t == needle | _ => false))
  | Value.str s => Except.ok (strHasSub s needle)
  | _ => Except.error PyErr.typeError

/-- Helper for `any(needle in preset for preset in xs)` over a parsed list,
with the same short-circuit and fault behaviour as the generator expression. -/
def pyAnyInList (needle : String) : List Value → Except PyErr Bool
| [] => Except.ok false
| v :: rest =>
  match pyInStr needle v with
  | Except.error e => Except.error e
  | Except.ok true => Except.ok true
  | Except.ok false => pyAnyInList needle rest

/-- `any(needle in preset for preset in v)`: iterating a mapping yields its
keys, iterating a string yields its characters, iterating a list yields its
elements; other values are not iterable and raise TypeError. -/
def pyAnyHasSub (needle : String) (v : Value) : Except PyErr Bool :=
  match v with
  | Value.list xs => pyAnyInList needle xs
  | Value.dict kvs => Except.ok (kvs.any (fun kv => strHasSub kv.1 needle))
  | Value.str s => Except.ok (s.toList.any (fun c => strHasSub (String.mk [c]) needle))
  | _ => Except.error PyErr.typeError

/-- `v == s` for a string literal `s` (values of other types never equal it). -/
def vIsStr (v : Value) (s : String) : Bool :=
  match v with
  | Value.str t => t == s
  | _ => false

/-- Whitespace characters matched by the regex class backslash-s. -/
def isPySpace (c : Char) : Bool :=
  c == ' ' || c == '\t' || c == '\n' || c == '\r' || c.toNat == 11 || c.toNat == 12

/-- ASCII alphanumeric characters, the class a-zA-Z0-9. -/
def isAlnumAscii (c : Char) : Bool :=
  ('a' ≤ c && c ≤ 'z') || ('A' ≤ c && c ≤ 'Z') || ('0' ≤ c && c ≤ '9')

/-- Regex tokens: a single character of a class, or one-or-more of a class. -/
inductive RTok where
| one : (Char → Bool) → RTok
| plus : (Char → Bool) → RTok

/-- Does the token sequence match some prefix of the character list?
Existential (search) semantics; a plus token consumes at least one character. -/
def reMatch : List RTok → List Char → Bool
| [], _ => true
| RTok.one p :: ts, c :: cs => p c && reMatch ts cs
| RTok.plus p :: ts, c :: cs => p c && (reMatch ts cs || reMatch (RTok.plus p :: ts) cs)
| _ :: _, [] => false

/-- Search for a match anchored at a line start (MULTILINE caret semantics);
`atStart` records whether the current position begins a line. -/
def mlSearchAux (ts : List RTok) (cs : List Char) (atStart : Bool) : Bool :=
  match cs with
  | [] => false
  | c :: rest => (atStart && reMatch ts (c :: rest)) || mlSearchAux ts rest (c == '\n')

/-- `re.search(pattern, content, re.MULTILINE)` for the fixed patterns used
by the checks, returning whether any match exists. -/
def reSearchML (ts : List RTok) (content : String) : Bool :=
  mlSearchAux ts content.toList true

/-- Literal characters of a string as regex tokens. -/
def litToks (s : String) : List RTok :=
  s.toList.map (fun c => RTok.one (fun x => x == c))

/-- The pattern caret star backslash-s dot-plus text=auto. -/
def textAutoPat : List RTok :=
  [RTok.one (fun x => x == '*'), RTok.one isPySpace, RTok.plus (fun c => !(c == '\n'))]
    ++ litToks "text=auto"

/-- The pattern caret star backslash-s dot-plus eol=lf. -/
def eolLfPat : List RTok :=
  [RTok.one (fun x => x == '*'), RTok.one isPySpace, RTok.plus (fun c => !(c == '\n'))]
    ++ litToks "eol=lf"

/-- The pattern caret star dot alnum-plus space-plus binary. -/
def binaryPat : List RTok :=
  [RTok.one (fun x => x == '*'), RTok.one (fun x => x == '.'),
   RTok.plus isAlnumAscii, RTok.plus isPySpace] ++ litToks "binary"

/-- Path join with a forward slash, modelling the slash operator on paths. -/
def pjoin (a b : String) : String := a ++ "/" ++ b

/-- The final component of a path, modelling the name attribute. -/
def baseName (p : String) : String :=
  String.mk ((p.toList.reverse.takeWhile (fun c => !(c == '/'))).reverse)

/-- The external boundary of the tool: filesystem reads and the structured
config parsers (TOML parse failures carry the exception text).  `exists_` is
true for any filesystem entry at the path, a directory included, exactly as
the existence test of the host path library behaves. -/
structure PyFS where
  exists_ : String → Bool
  is_dir : String → Bool
  read_text : String → String
  iterdir : String → List String
  parse_json : String → Option Value
  parse_toml : String → Except String Value

/-- `base.check_file_exists`: PASS with an empty message when the path
exists, otherwise the fail status and the given or default message. -/
def check_file_exists (fs : PyFS) (p : String) (fail_status : Status)
    (fail_message : Option String) : Status × String :=
  if fs.exists_ p then (Status.PASS, "")
  else
    match fail_message with
    | some m => (fail_status, m)
    | none => (fail_status, "Missing " ++ baseName p)

/-- The type of a registered check procedure applied to a filesystem:
`(path, report)` to a new report, possibly raising. -/
def CheckFun := String → Report → Except PyErr Report

/-- `common.check_readme`: check for the README.md file. -/
def check_readme (fs : PyFS) (path : String) (report : Report) : Except PyErr Report :=
  let sm := check_file_exists fs (pjoin path "README.md") Status.FAIL none
  Except.ok (report.add "README.md exists" sm.1 sm.2)

/-- `common.check_license`: check for a license file, trying each candidate
name in order and reporting PASS on the first hit. -/
def check_license (fs : PyFS) (path : String) (report : Report) : Except PyErr Report :=
  let s1 := (check_file_exists fs (pjoin path "LICENSE") Status.FAIL none).1
  if s1 == Status.PASS then Except.ok (report.add "LICENSE exists" s1 "")
  else
    let s2 := (check_file_exists fs (pjoin path "LICENSE-APACHE-2.0") Status.FAIL none).1
    if s2 == Status.PASS then Except.ok (report.add "LICENSE exists" s2 "")
    else
      let s3 := (check_file_exists fs (pjoin path "LICENSE-MIT") Status.FAIL none).1
      if s3 == Status.PASS then Except.ok (report.add "LICENSE exists" s3 "")
      else Except.ok (report.add "LICENSE exists" Status.FAIL "Missing LICENSE file")

/-- `common.check_changelog`: check for the CHANGELOG.md file (WARN when absent). -/
def check_changelog (fs : PyFS) (path : String) (report : Report) : Except PyErr Report :=
  let sm := check_file_exists fs (pjoin path "CHANGELOG.md") Status.WARN
    (some "Consider adding CHANGELOG.md")
  Except.ok (report.add "CHANGELOG.md exists" sm.1 sm.2)

/-- `common.check_gitignore`: check for the .gitignore file. -/
def check_gitignore (fs : PyFS) (path : String) (report : Report) : Except PyErr Report :=
  let sm := check_file_exists fs (pjoin path ".gitignore") Status.FAIL none
  Except.ok (report.add ".gitignore exists" sm.1 sm.2)

/-- `common.check_gitatributes`: check for the .gitattributes file and its
content conventions (fixed-pattern searches over the text). -/
def check_gitatributes (fs : PyFS) (path : String) (report : Report) : Except PyErr Report :=
  let gp := pjoin path ".gitattributes"
  let sm := check_file_exists fs gp Status.FAIL none
  let report := report.add ".gitattributes exists" sm.1 sm.2
  if !(sm.1 == Status.PASS) then Except.ok report
  else
    let content := fs.read_text gp
    let report :=
      if reSearchML textAutoPat content then
        report.add ".gitattributes has text=auto" Status.PASS ""
      else
        report.add ".gitattributes has text=auto" Status.WARN
          "Consider adding * text=auto for line ending normalization"
    let report :=
      if reSearchML eolLfPat content then
        report.add ".gitattributes enforces LF" Status.PASS ""
      else
        report.add ".gitattributes enforces LF" Status.WARN
          "Consider adding * eol=lf for consistent line endings"
    let report :=
      if reSearchML binaryPat content then
        report.add ".gitattributes marks some files as binary" Status.PASS ""
      else
        report.add ".gitattributes marks some files as binary" Status.WARN
          "Consider marking binary file types as binary"
    Except.ok report

/-- The local helper `check_setting` of `common.check_editorconfig`:
substring test for one setting, appending PASS or WARN. -/
def ec_setting (content : String) (report : Report) (name setting : String) : Report :=
  if strHasSub content setting then
    report.add (".editorconfig has " ++ name) Status.PASS ""
  else
    report.add (".editorconfig has " ++ name) Status.WARN ("Missing " ++ setting)

/-- An if/else around `report.add` appending one of two results under the
same name, as several checks do for a nested condition. -/
def addIf (cond : Bool) (r : Report) (n : String) (st : Status) (mt : String)
    (sf : Status) (mf : String) : Report :=
  if cond then r.add n st mt else r.add n sf mf

/-- The three-way ignore-list branch of `python.check_ruff_lint`: PASS when
ALL is selected with a non-empty ignore list, WARN when ALL is selected
without one, and no result otherwise. -/
def ruff_ignore_add (hasALL : Bool) (ignore : Value) (r : Report) : Report :=
  if hasALL && truthy ignore then r.add "Ruff lint has ignore list" Status.PASS ""
  else if hasALL then r.add "Ruff lint has ignore list" Status.WARN
    "Consider adding ignore list for rules that conflict"
  else r

/-- `common.check_editorconfig`: check for .editorconfig and its settings. -/
def check_editorconfig (fs : PyFS) (path : String) (report : Report) : Except PyErr Report :=
  let ep := pjoin path ".editorconfig"
  let sm := check_file_exists fs ep Status.FAIL none
  let report := report.add ".editorconfig exists" sm.1 sm.2
  if !(sm.1 == Status.PASS) then Except.ok report
  else
    let content := fs.read_text ep
    let report := ec_setting content report "root=true" "root = true"
    let report := ec_setting content report "charset=utf-8" "charset = utf-8"
    let report := ec_setting content report "end_of_line=lf" "end_of_line = lf"
    let report := ec_setting content report "indent_style=space" "indent_style = space"
    let report := ec_setting content report "indent_size=4" "indent_size = 4"
    let report := ec_setting content report "insert_final_newline=true" "insert_final_newline = true"
    let report := ec_setting content report "trim_trailing_whitespace=true" "trim_trailing_whitespace = true"
    Except.ok report

/-- `common.check_devbox`: check for devbox.json, the validity of its JSON,
its packages and schema keys, and the devbox.lock file. -/
def check_devbox (fs : PyFS) (path : String) (report : Report) : Except PyErr Report :=
  let dp := pjoin path "devbox.json"
  let sm := check_file_exists fs dp Status.FAIL none
  let report := report.add "devbox.json exists" sm.1 sm.2
  if !(sm.1 == Status.PASS) then Except.ok report
  else
    match fs.parse_json (fs.read_text dp) with
    | none =>
      Except.ok (report.add "devbox.json is valid JSON" Status.FAIL "Invalid JSON in devbox.json")
    | some devbox_config =>
      let report := report.add "devbox.json is valid JSON" Status.PASS ""
      match pyGet devbox_config "packages" Value.null with
      | Except.error e => Except.error e
      | Except.ok pk =>
        let report :=
          if truthy pk then report.add "devbox.json has packages defined" Status.PASS ""
          else report.add "devbox.json has packages defined" Status.WARN
            "No packages defined in devbox.json"
        match pyInStr "$schema" devbox_config with
        | Except.error e => Except.error e
        | Except.ok hasSchema =>
          let report :=
            if hasSchema then report.add "devbox.json has $schema" Status.PASS ""
            else report.add "devbox.json has $schema" Status.WARN
              "Consider adding $schema for validation"
          let lk := check_file_exists fs (pjoin path "devbox.lock") Status.WARN
            (some "Consider adding devbox.lock for reproducibility")
          Except.ok (report.add "devbox.lock exists" lk.1 lk.2)

/-- `common.check_pre_commit`: check for the pre-commit configuration file. -/
def check_pre_commit (fs : PyFS) (path : String) (report : Report) : Except PyErr Report :=
  let sm := check_file_exists fs (pjoin path ".pre-commit-config.yaml") Status.FAIL none
  Except.ok (report.add ".pre-commit-config.yaml exists" sm.1 sm.2)

/-- `common.check_renovate`: check for renovate.json, the validity of its
JSON, its schema key and its extends presets. -/
def check_renovate (fs : PyFS) (path : String) (report : Report) : Except PyErr Report :=
  let rp := pjoin path "renovate.json"
  let sm := check_file_exists fs rp Status.WARN none
  let report := report.add "Renovate configuration exists" sm.1 sm.2
  if !(sm.1 == Status.PASS) then Except.ok report
  else
    match fs.parse_json (fs.read_text rp) with
    | none =>
      Except.ok (report.add "renovate.json is valid JSON" Status.FAIL "Invalid JSON")
    | some renovate_config =>
      let report := report.add "renovate.json is valid JSON" Status.PASS ""
      match pyInStr "$schema" renovate_config with
      | Except.error e => Except.error e
      | Except.ok hasSchema =>
        let report :=
          if hasSchema then report.add "renovate.json has $schema" Status.PASS ""
          else report.add "renovate.json has $schema" Status.WARN
            "Consider adding $schema for validation"
        match pyGet renovate_config "extends" (Value.list []) with
        | Except.error e => Except.error e
        | Except.ok ext =>
          if truthy ext then
            let report := report.add "Renovate has extends configured" Status.PASS ""
            match pyAnyHasSub "best-practices" ext with
            | Except.error e => Except.error e
            | Except.ok bp =>
              if bp then
                Except.ok (report.add "Renovate extends best-practices" Status.PASS "")
              else
                Except.ok (report.add "Renovate extends best-practices" Status.WARN
                  "Consider extending config:best-practices")
          else
            Except.ok (report.add "Renovate has extends configured" Status.WARN
              "Consider using extends for presets")

/-- `common.check_github_actions`: check for the workflows directory and the
CI workflow file. -/
def check_github_actions (fs : PyFS) (path : String) (report : Report) : Except PyErr Report :=
  let wp := pjoin (pjoin path ".github") "workflows"
  let cp := pjoin wp "ci.yaml"
  if !(fs.exists_ wp) then
    Except.ok (report.add "GitHub Actions workflows directory exists" Status.FAIL
      "Missing .github/workflows/")
  else
    let report := report.add "GitHub Actions workflows directory exists" Status.PASS ""
    let sm := check_file_exists fs cp Status.FAIL (some "Missing .github/workflows/ci.yaml")
    Except.ok (report.add "GitHub Actions CI workflow exists" sm.1 sm.2)

/-- `python.check_pyproject_toml`: presence and validity of pyproject.toml,
and its project section. -/
def check_pyproject_toml (fs : PyFS) (path : String) (report : Report) : Except PyErr Report :=
  let pp := pjoin path "pyproject.toml"
  let sm := check_file_exists fs pp Status.FAIL none
  if !(sm.1 == Status.PASS) then
    Except.ok (report.add "pyproject.toml exists" Status.FAIL sm.2)
  else
    let report := report.add "pyproject.toml exists" Status.PASS ""
    match fs.parse_toml (fs.read_text pp) with
    | Except.error e =>
      Except.ok (report.add "pyproject.toml valid TOML" Status.FAIL ("Invalid TOML: " ++ e))
    | Except.ok config =>
      let report := report.add "pyproject.toml valid TOML" Status.PASS ""
      match pyGet config "project" (Value.dict []) with
      | Except.error e => Except.error e
      | Except.ok project =>
        if truthy project then
          Except.ok (report.add "pyproject.toml has [project] section" Status.PASS "")
        else
          Except.ok (report.add "pyproject.toml has [project] section" Status.FAIL
            "Missing [project] section")

/-- `python.check_src_layout`: presence of a src directory containing at
least one package (a child directory holding an init module). -/
def check_src_layout (fs : PyFS) (path : String) (report : Report) : Except PyErr Report :=
  let sp := pjoin path "src"
  let st := (check_file_exists fs sp Status.FAIL none).1
  if st == Status.PASS && fs.is_dir sp then
    let report := report.add "src/ directory exists" Status.PASS ""
    let packages := (fs.iterdir sp).filter
      (fun p => fs.is_dir p && fs.exists_ (pjoin p "__init__.py"))
    if !packages.isEmpty then
      Except.ok (report.add "src/ contains packages" Status.PASS "")
    else
      Except.ok (report.add "src/ contains packages" Status.WARN
        "No packages found in src/ directory")
  else
    Except.ok (report.add "src/ directory exists" Status.WARN
      "Consider using a src/ layout for source code")

/-- `python.check_uv_lock`: presence of the uv.lock file. -/
def check_uv_lock (fs : PyFS) (path : String) (report : Report) : Except PyErr Report :=
  let st := (check_file_exists fs (pjoin path "uv.lock") Status.FAIL none).1
  if st == Status.PASS then
    Except.ok (report.add "uv.lock file exists" Status.PASS "")
  else
    Except.ok (report.add "uv.lock file exists" Status.WARN
      "Consider adding uv.lock for dependency locking")

/-- `python.check_dependency_groups`: development dependency groups in
pyproject.toml; silent return when the manifest is missing or invalid,
both being reported by another check. -/
def check_dependency_groups (fs : PyFS) (path : String) (report : Report) : Except PyErr Report :=
  let pp := pjoin path "pyproject.toml"
  let st := (check_file_exists fs pp Status.FAIL none).1
  if !(st == Status.PASS) then Except.ok report
  else
    match fs.parse_toml (fs.read_text pp) with
    | Except.error _ => Except.ok report
    | Except.ok config =>
      match pyGet config "dependency-groups" (Value.dict []) with
      | Except.error e => Except.error e
      | Except.ok dep_groups =>
        if truthy dep_groups then
          let report := report.add "Has dependency-groups" Status.PASS ""
          match pyInStr "dev" dep_groups with
          | Except.error e => Except.error e
          | Except.ok hasDev =>
            if hasDev then
              Except.ok (report.add "Has dev dependency group" Status.PASS "")
            else
              Except.ok (report.add "Has dev dependency group" Status.WARN
                "Consider adding a dev dependency group")
        else
          Except.ok (report.add "Has dependency-groups" Status.WARN
            "Consider using dependency-groups for dev dependencies")

/-- `python.check_ruff`: Ruff configuration in pyproject.toml; silent return
when the manifest is missing or invalid. -/
def check_ruff (fs : PyFS) (path : String) (report : Report) : Except PyErr Report :=
  let pp := pjoin path "pyproject.toml"
  let st := (check_file_exists fs pp Status.FAIL none).1
  if !(st == Status.PASS) then Except.ok report
  else
    match fs.parse_toml (fs.read_text pp) with
    | Except.error _ => Except.ok report
    | Except.ok config =>
      match pyGet config "tool" (Value.dict []) with
      | Except.error e => Except.error e
      | Except.ok tool =>
        match pyGet tool "ruff" (Value.dict []) with
        | Except.error e => Except.error e
        | Except.ok ruff_config =>
          if !truthy ruff_config then
            Except.ok (report.add "Ruff is configured" Status.FAIL
              "Ruff is not configured in pyproject.toml")
          else
            let report := report.add "Ruff is configured" Status.PASS ""
            match pyInStr "line-length" ruff_config with
            | Except.error e => Except.error e
            | Except.ok hasLL =>
              let report :=
                if hasLL then report.add "Ruff has line-length configured" Status.PASS ""
                else report.add "Ruff has line-length configured" Status.WARN
                  "Consider setting line-length"
              match pyGet ruff_config "format" (Value.dict []) with
              | Except.error e => Except.error e
              | Except.ok format_config =>
                if truthy format_config then
                  let report := report.add "Ruff format is configured" Status.PASS ""
                  match pyGet format_config "line-ending" Value.null with
                  | Except.error e => Except.error e
                  | Except.ok le =>
                    if vIsStr le "lf" then
                      Except.ok (report.add "Ruff format uses LF line endings" Status.PASS "")
                    else
                      Except.ok (report.add "Ruff format uses LF line endings" Status.WARN
                        "Consider setting line-ending = lf")
                else
                  Except.ok (report.add "Ruff format is configured" Status.WARN
                    "Consider configuring [tool.ruff.format]")

/-- `python.check_ruff_lint`: Ruff lint rules configuration in
pyproject.toml; silent return when the manifest is missing or invalid. -/
def check_ruff_lint (fs : PyFS) (path : String) (report : Report) : Except PyErr Report :=
  let pp := pjoin path "pyproject.toml"
  let st := (check_file_exists fs pp Status.FAIL none).1
  if !(st == Status.PASS) then Except.ok report
  else
    match fs.parse_toml (fs.read_text pp) with
    | Except.error _ => Except.ok report
    | Except.ok config =>
      match pyGet config "tool" (Value.dict []) with
      | Except.error e => Except.error e
      | Except.ok tool =>
        match pyGet tool "ruff" (Value.dict []) with
        | Except.error e => Except.error e
        | Except.ok ruff_config =>
          match pyGet ruff_config "lint" (Value.dict []) with
          | Except.error e => Except.error e
          | Except.ok lint_config =>
            if !truthy lint_config then
              Except.ok (report.add "Ruff lint is configured" Status.WARN
                "Consider configuring [tool.ruff.lint]")
            else
              let report := report.add "Ruff lint is configured" Status.PASS ""
              match pyGet lint_config "preview" Value.null with
              | Except.error e => Except.error e
              | Except.ok preview =>
                let report := addIf (truthy preview) report "Ruff lint preview mode enabled"
                  Status.PASS "" Status.WARN "Consider enabling preview mode for latest rules"
                match pyGet lint_config "select" (Value.list []) with
                | Except.error e => Except.error e
                | Except.ok select =>
                  if !truthy select then
                    Except.ok (report.add "Ruff lint has rules selected" Status.WARN
                      "No lint rules selected")
                  else
                    let report := report.add "Ruff lint has rules selected" Status.PASS ""
                    match pyInStr "ALL" select with
                    | Except.error e => Except.error e
                    | Except.ok hasALL =>
                      let report := addIf hasALL report "Ruff lint uses ALL rule"
                        Status.PASS "" Status.WARN "Consider enabling the ALL rule"
                      match pyGet lint_config "ignore" (Value.list []) with
                      | Except.error e => Except.error e
                      | Except.ok ignore =>
                        let report := ruff_ignore_add hasALL ignore report
                        match pyGet lint_config "pydocstyle" (Value.dict []) with
                        | Except.error e => Except.error e
                        | Except.ok pydocstyle_config =>
                          match pyGet pydocstyle_config "convention" Value.null with
                          | Except.error e => Except.error e
                          | Except.ok convention =>
                            let report := addIf (truthy convention) report
                              "Ruff pydocstyle convention set" Status.PASS ""
                              Status.WARN "Consider setting pydocstyle convention (e.g., google)"
                            match pyGet lint_config "isort" (Value.dict []) with
                            | Except.error e => Except.error e
                            | Except.ok isort_config =>
                              let report := addIf (truthy isort_config) report
                                "Ruff isort is configured" Status.PASS ""
                                Status.WARN "Consider configuring isort settings"
                              match pyGet lint_config "flake8-copyright" (Value.dict []) with
                              | Except.error e => Except.error e
                              | Except.ok copyright_config =>
                                match pyGet copyright_config "notice-rgx" Value.null with
                                | Except.error e => Except.error e
                                | Except.ok rgx =>
                                  if truthy rgx then
                                    Except.ok (report.add "Ruff copyright notice configured"
                                      Status.PASS "")
                                  else
                                    Except.ok (report.add "Ruff copyright notice configured"
                                      Status.WARN "Consider configuring copyright notice regex")

/-- `python.check_mypy`: mypy configuration in pyproject.toml; silent return
when the manifest is missing or invalid. -/
def check_mypy (fs : PyFS) (path : String) (report : Report) : Except PyErr Report :=
  let pp := pjoin path "pyproject.toml"
  let st := (check_file_exists fs pp Status.FAIL none).1
  if !(st == Status.PASS) then Except.ok report
  else
    match fs.parse_toml (fs.read_text pp) with
    | Except.error _ => Except.ok report
    | Except.ok config =>
      match pyGet config "tool" (Value.dict []) with
      | Except.error e => Except.error e
      | Except.ok tool =>
        match pyGet tool "mypy" (Value.dict []) with
        | Except.error e => Except.error e
        | Except.ok mypy_config =>
          if !truthy mypy_config then
            Except.ok (report.add "mypy is configured" Status.FAIL
              "mypy is not configured in pyproject.toml")
          else
            let report := report.add "mypy is configured" Status.PASS ""
            match pyGet mypy_config "strict" Value.null with
            | Except.error e => Except.error e
            | Except.ok strict =>
              if truthy strict then
                Except.ok (report.add "mypy strict mode enabled" Status.PASS "")
              else
                Except.ok (report.add "mypy strict mode enabled" Status.WARN
                  "Consider enabling strict mode")

/-- `python.check_python_precommit_hooks`: Python hooks in the pre-commit
configuration text; silent return when the file is missing. -/
def check_python_precommit_hooks (fs : PyFS) (path : String) (report : Report) :
    Except PyErr Report :=
  let cp := pjoin path ".pre-commit-config.yaml"
  let st := (check_file_exists fs cp Status.FAIL none).1
  if !(st == Status.PASS) then Except.ok report
  else
    let content := fs.read_text cp
    let report :=
      if strHasSub content "ruff" then
        let report := report.add "Pre-commit has Ruff hooks" Status.PASS ""
        let report :=
          if strHasSub content "ruff-check" then
            report.add "Pre-commit has ruff-check" Status.PASS ""
          else
            report.add "Pre-commit has ruff-check" Status.WARN
              "Consider adding ruff-check hook"
        if strHasSub content "ruff-format" then
          report.add "Pre-commit has ruff-format" Status.PASS ""
        else
          report.add "Pre-commit has ruff-format" Status.WARN
            "Consider adding ruff-format hook"
      else
        report.add "Pre-commit has Ruff hooks" Status.WARN
          "Consider adding Ruff pre-commit hooks"
    if strHasSub content "mypy" then
      Except.ok (report.add "Pre-commit has mypy hook" Status.PASS "")
    else
      Except.ok (report.add "Pre-commit has mypy hook" Status.WARN
        "Consider adding mypy pre-commit hook")

/-- `python.check_python_devbox`: uv in the Devbox configuration text;
silent return when the file is missing. -/
def check_python_devbox (fs : PyFS) (path : String) (report : Report) : Except PyErr Report :=
  let dp := pjoin path "devbox.json"
  let st := (check_file_exists fs dp Status.FAIL none).1
  if !(st == Status.PASS) then Except.ok report
  else
    let content := fs.read_text dp
    if strHasSub content "uv@" || strHasSub content "\"uv\"" then
      Except.ok (report.add "Devbox includes uv" Status.PASS "")
    else
      Except.ok (report.add "Devbox includes uv" Status.WARN
        "Consider adding uv to Devbox packages")

/-- `python.check_python_ci`: Python steps in the CI workflow text (searched
case-insensitively); silent return when the file is missing. -/
def check_python_ci (fs : PyFS) (path : String) (report : Report) : Except PyErr Report :=
  let cp := pjoin (pjoin (pjoin path ".github") "workflows") "ci.yaml"
  let st := (check_file_exists fs cp Status.FAIL none).1
  if !(st == Status.PASS) then Except.ok report
  else
    let content := (fs.read_text cp).toLower
    let report :=
      if strHasSub content "ruff format" then
        report.add "CI checks formatting" Status.PASS ""
      else
        report.add "CI checks formatting" Status.WARN
          "Consider adding format check to CI"
    let report :=
      if strHasSub content "ruff check" then
        report.add "CI runs linting" Status.PASS ""
      else
        report.add "CI runs linting" Status.WARN
          "Consider adding lint check to CI"
    if strHasSub content "mypy" then
      Except.ok (report.add "CI runs type checking" Status.PASS "")
    else
      Except.ok (report.add "CI runs type checking" Status.WARN
        "Consider adding type check to CI")

/-- The registry state of `checks.registry`: the unconditional list and the
per-language lists (the dictionary is pre-populated with every language). -/
structure Registry (χ : Type) where
  common : List χ
  language : Language → List χ

/-- `registry.register_common`: append to the unconditional list and return
the registered, unmodified procedure.  The mutation of the module-level list
is modelled by threading the registry state. -/
def register_common {χ : Type} (fn : χ) (reg : Registry χ) : χ × Registry χ :=
  (fn, { reg with common := reg.common ++ [fn] })

/-- `registry.register_language`: append to the list keyed by the language
and return the registered, unmodified procedure. -/
def register_language {χ : Type} (language : Language) (fn : χ) (reg : Registry χ) :
    χ × Registry χ :=
  (fn, { reg with
    language := fun l => if l = language then reg.language l ++ [fn] else reg.language l })

/-- `registry.run_all_checks`: run every common check in registration order,
then for each language in the given collection every check registered under
it, in registration order, each invoked as `(path, report)`.  Polymorphic in
the threaded state so it can also run instrumented procedures. -/
def run_all_checks {ρ : Type} (common : List (String → ρ → Except PyErr ρ))
    (language_checks : Language → List (String → ρ → Except PyErr ρ))
    (path : String) (languages : List Language) (report : ρ) : Except PyErr ρ :=
  (common.foldlM (fun (r : ρ) (c : String → ρ → Except PyErr ρ) => c path r) report).bind
    (fun r => languages.foldlM
      (fun (r : ρ) (language : Language) =>
        (language_checks language).foldlM
          (fun (r : ρ) (c : String → ρ → Except PyErr ρ) => c path r) r) r)

/-- The registry as populated at process start by the registration calls of
the check modules, in source order. -/
def registry (fs : PyFS) : Registry CheckFun :=
  let r : Registry CheckFun := ⟨[], fun _ => []⟩
  let r := (register_common (check_readme fs) r).2
  let r := (register_common (check_license fs) r).2
  let r := (register_common (check_changelog fs) r).2
  let r := (register_common (check_gitignore fs) r).2
  let r := (register_common (check_gitatributes fs) r).2
  let r := (register_common (check_editorconfig fs) r).2
  let r := (register_common (check_devbox fs) r).2
  let r := (register_common (check_pre_commit fs) r).2
  let r := (register_common (check_renovate fs) r).2
  let r := (register_common (check_github_actions fs) r).2
  let r := (register_language Language.PYTHON (check_pyproject_toml fs) r).2
  let r := (register_language Language.PYTHON (check_src_layout fs) r).2
  let r := (register_language Language.PYTHON (check_uv_lock fs) r).2
  let r := (register_language Language.PYTHON (check_dependency_groups fs) r).2
  let r := (register_language Language.PYTHON (check_ruff fs) r).2
  let r := (register_language Language.PYTHON (check_ruff_lint fs) r).2
  let r := (register_language Language.PYTHON (check_mypy fs) r).2
  let r := (register_language Language.PYTHON (check_python_precommit_hooks fs) r).2
  let r := (register_language Language.PYTHON (check_python_devbox fs) r).2
  let r := (register_language Language.PYTHON (check_python_ci fs) r).2
  r

/-- The populated unconditional check list. -/
def registered_common (fs : PyFS) : List CheckFun := (registry fs).common

/-- The populated per-language check lists. -/
def registered_language (fs : PyFS) (l : Language) : List CheckFun := (registry fs).language l

/-- `detection.detect_languages`: the set of languages whose marker file
exists directly under the path, represented as a duplicate-free list in a
fixed order (the iteration order of the set carries no meaning). -/
def detect_languages (fs : PyFS) (path : String) : List Language :=
  (if fs.exists_ (pjoin path "CMakeLists.txt") then [Language.CPP] else [])
    ++ (if fs.exists_ (pjoin path "pyproject.toml") then [Language.PYTHON] else [])
    ++ (if fs.exists_ (pjoin path "Cargo.toml") then [Language.RUST] else [])
    ++ (if fs.exists_ (pjoin path "package.json") then [Language.TYPESCRIPT] else [])

/-- Ways a verification run can terminate without a report: the fatal
process exit for a path that is not a directory, or a propagated runtime
fault from a check body. -/
inductive VerifyErr where
| fatalNotADirectory
| pyErr : PyErr → VerifyErr
deriving DecidableEq

/-- `verification.verify_project`: exit fatally unless the path is a
directory; detect languages; run all registered checks; append the single
WARN note when no language was detected; return the completed report. -/
def verify_project (fs : PyFS) (path : String) : Except VerifyErr Report :=
  if !(fs.is_dir path) then Except.error VerifyErr.fatalNotADirectory
  else
    let languages := detect_languages fs path
    let report : Report := ⟨path, languages, []⟩
    match run_all_checks (registered_common fs) (registered_language fs) path languages report with
    | Except.error e => Except.error (VerifyErr.pyErr e)
    | Except.ok report =>
      if languages.length == 0 then
        Except.ok (report.add "Language detection" Status.WARN
          "No supported programming languages detected")
      else
        Except.ok report

/-- An instrumented procedure for runner theorems: it records its own id and
the path it was invoked with in the threaded trace. -/
def traced (i : Nat) : String → List (Nat × String) → Except PyErr (List (Nat × String)) :=
  fun p t => Except.ok (t ++ [(i, p)])

/-- The report extends the given one by results drawn from the given names,
none carrying status SKIP. -/
def SpecRes (names : List String) (r r2 : Report) : Prop :=
  ∃ ds, r2.results = r.results ++ ds ∧ ∀ x ∈ ds, x.name ∈ names ∧ x.status ≠ Status.SKIP

/-- A procedure that, whenever it returns normally, has appended at least one
result named `n`. -/
def AddsNamed (n : String) (c : CheckFun) : Prop :=
  ∀ p r r2, c p r = Except.ok r2 →
    ∃ ds, r2.results = r.results ++ ds ∧ n ∈ ds.map (fun x => x.name)

/-- The result names `check_readme` can emit. -/
def readmeNames : List String := ["README.md exists"]

/-- The result names `check_license` can emit. -/
def licenseNames : List String := ["LICENSE exists"]

/-- The result names `check_changelog` can emit. -/
def changelogNames : List String := ["CHANGELOG.md exists"]

/-- The result names `check_gitignore` can emit. -/
def gitignoreNames : List String := [".gitignore exists"]

/-- The result names `check_gitatributes` can emit. -/
def gitattributesNames : List String :=
  [".gitattributes exists", ".gitattributes has text=auto", ".gitattributes enforces LF",
   ".gitattributes marks some files as binary"]

/-- The result names `check_editorconfig` can emit. -/
def editorconfigNames : List String :=
  [".editorconfig exists", ".editorconfig has root=true", ".editorconfig has charset=utf-8",
   ".editorconfig has end_of_line=lf", ".editorconfig has indent_style=space",
   ".editorconfig has indent_size=4", ".editorconfig has insert_final_newline=true",
   ".editorconfig has trim_trailing_whitespace=true"]

/-- The result names `check_devbox` can emit. -/
def devboxNames : List String :=
  ["devbox.json exists", "devbox.json is valid JSON", "devbox.json has packages defined",
   "devbox.json has $schema", "devbox.lock exists"]

/-- The result names `check_pre_commit` can emit. -/
def precommitNames : List String := [".pre-commit-config.yaml exists"]

/-- The result names `check_renovate` can emit. -/
def renovateNames : List String :=
  ["Renovate configuration exists", "renovate.json is valid JSON", "renovate.json has $schema",
   "Renovate has extends configured", "Renovate extends best-practices"]

/-- The result names `check_github_actions` can emit. -/
def githubActionsNames : List String :=
  ["GitHub Actions workflows directory exists", "GitHub Actions CI workflow exists"]

/-- The result names `check_pyproject_toml` can emit. -/
def pyprojectNames : List String :=
  ["pyproject.toml exists", "pyproject.toml valid TOML", "pyproject.toml has [project] section"]

/-- The result names `check_src_layout` can emit. -/
def srcLayoutNames : List String := ["src/ directory exists", "src/ contains packages"]

/-- The result names `check_uv_lock` can emit. -/
def uvLockNames : List String := ["uv.lock file exists"]

/-- The result names `check_dependency_groups` can emit. -/
def depGroupsNames : List String := ["Has dependency-groups", "Has dev dependency group"]

/-- The result names `check_ruff` can emit. -/
def ruffNames : List String :=
  ["Ruff is configured", "Ruff has line-length configured", "Ruff format is configured",
   "Ruff format uses LF line endings"]

/-- The result names `check_ruff_lint` can emit. -/
def ruffLintNames : List String :=
  ["Ruff lint is configured", "Ruff lint preview mode enabled", "Ruff lint has rules selected",
   "Ruff lint uses ALL rule", "Ruff lint has ignore list", "Ruff pydocstyle convention set",
   "Ruff isort is configured", "Ruff copyright notice configured"]

/-- The result names `check_mypy` can emit. -/
def mypyNames : List String := ["mypy is configured", "mypy strict mode enabled"]

/-- The result names `check_python_precommit_hooks` can emit. -/
def pyPrecommitNames : List String :=
  ["Pre-commit has Ruff hooks", "Pre-commit has ruff-check", "Pre-commit has ruff-format",
   "Pre-commit has mypy hook"]

/-- The result names `check_python_devbox` can emit. -/
def pyDevboxNames : List String := ["Devbox includes uv"]

/-- The result names `check_python_ci` can emit. -/
def pyCiNames : List String := ["CI checks formatting", "CI runs linting", "CI runs type checking"]

/-- Every result name a common check can emit. -/
def commonNames : List String :=
  readmeNames ++ licenseNames ++ changelogNames ++ gitignoreNames ++ gitattributesNames
    ++ editorconfigNames ++ devboxNames ++ precommitNames ++ renovateNames ++ githubActionsNames

/-- Every result name a Python check can emit. -/
def pythonNames : List String :=
  pyprojectNames ++ srcLayoutNames ++ uvLockNames ++ depGroupsNames ++ ruffNames
    ++ ruffLintNames ++ mypyNames ++ pyPrecommitNames ++ pyDevboxNames ++ pyCiNames

/-- Every result name a registered check can emit. -/
def allNames : List String := commonNames ++ pythonNames

/-- The name of the first result each common check always appends. -/
def commonFirstNames : List String :=
  ["README.md exists", "LICENSE exists", "CHANGELOG.md exists", ".gitignore exists",
   ".gitattributes exists", ".editorconfig exists", "devbox.json exists",
   ".pre-commit-config.yaml exists", "Renovate configuration exists",
   "GitHub Actions workflows directory exists"]

/-- The (name, status) shape of a report, the data compared across runs. -/
def pairsNS (r : Report) : List (String × Status) :=
  r.results.map (fun x => (x.name, x.status))

/-- A sample project directory holding no files at all. -/
def fsNone : PyFS where
  exists_ := fun _ => false
  is_dir := fun p => p == "proj"
  read_text := fun _ => ""
  iterdir := fun _ => []
  parse_json := fun _ => none
  parse_toml := fun _ => Except.error "empty"

/-- A sample filesystem where the audited path is not a directory. -/
def fsNoDir : PyFS where
  exists_ := fun _ => false
  is_dir := fun _ => false
  read_text := fun _ => ""
  iterdir := fun _ => []
  parse_json := fun _ => none
  parse_toml := fun _ => Except.error "empty"

/-- A sample filesystem whose README.md entry is itself a directory. -/
def fsDirReadme : PyFS where
  exists_ := fun p => p == "proj/README.md"
  is_dir := fun p => p == "proj" || p == "proj/README.md"
  read_text := fun _ => ""
  iterdir := fun _ => []
  parse_json := fun _ => none
  parse_toml := fun _ => Except.error "empty"

/-- A sample project whose pyproject.toml exists but is not valid TOML. -/
def fsPyBad : PyFS where
  exists_ := fun p => p == "proj/pyproject.toml"
  is_dir := fun p => p == "proj"
  read_text := fun _ => ""
  iterdir := fun _ => []
  parse_json := fun _ => none
  parse_toml := fun _ => Except.error "bad"

/-- A sample project whose devbox.json holds a syntactically valid JSON
array rather than an object. -/
def fsDevboxList : PyFS where
  exists_ := fun p => p == "proj/devbox.json"
  is_dir := fun p => p == "proj"
  read_text := fun _ => "[]"
  iterdir := fun _ => []
  parse_json := fun s => if s == "[]" then some (Value.list []) else none
  parse_toml := fun _ => Except.error "empty"

/-- A sample project whose devbox.json holds syntactically invalid JSON. -/
def fsDevboxBadSyntax : PyFS where
  exists_ := fun p => p == "proj/devbox.json"
  is_dir := fun p => p == "proj"
  read_text := fun _ => "not json"
  iterdir := fun _ => []
  parse_json := fun _ => none
  parse_toml := fun _ => Except.error "empty"

/-- The names of the nested content results that depend on a parsed
pyproject.toml manifest. -/
def nestedManifestNames : List String :=
  ["pyproject.toml has [project] section", "Has dependency-groups", "Has dev dependency group",
   "Ruff is configured", "Ruff has line-length configured", "Ruff format is configured",
   "Ruff format uses LF line endings", "Ruff lint is configured",
   "Ruff lint preview mode enabled", "Ruff lint has rules selected", "Ruff lint uses ALL rule",
   "Ruff lint has ignore list", "Ruff pydocstyle convention set", "Ruff isort is configured",
   "Ruff copyright notice configured", "mypy is configured", "mypy strict mode enabled"]

/-- The names the Python checks that do not read the manifest can emit. -/
def c4OtherNames : List String :=
  srcLayoutNames ++ uvLockNames ++ pyPrecommitNames ++ pyDevboxNames ++ pyCiNames

/-- The report of a completed run (the empty report when the run aborts);
used to name concrete run results in closed statements. -/
def reportOf (fs : PyFS) (path : String) : Report :=
  match verify_project fs path with
  | Except.ok r => r
  | Except.error _ => ⟨path, [], []⟩

/-- The completed run on the empty sample directory. -/
def rNone : Report := reportOf fsNone "proj"

/-- The completed run on the sample project with the invalid manifest. -/
def rPyBad : Report := reportOf fsPyBad "proj"

/-- A sample report holding one PASS and one SKIP result. -/
def rSample : Report := ⟨"p", [], [⟨"a", Status.PASS, ""⟩, ⟨"b", Status.SKIP, ""⟩]⟩

/-- A sample registry over plain numbers. -/
def regSample : Registry Nat := ⟨[], fun _ => []⟩

/-- A sample per-language registration table for runner theorems. -/
def lidsW : Language → List Nat :=
  fun l => if l = Language.PYTHON then [2] else []

lemma counts_le_and_iff (l : List CheckResult) :
    l.countP (fun x => x.status == Status.PASS) + l.countP (fun x => x.status == Status.FAIL)
        + l.countP (fun x => x.status == Status.WARN) ≤ l.length ∧
      (l.countP (fun x => x.status == Status.PASS) + l.countP (fun x => x.status == Status.FAIL)
          + l.countP (fun x => x.status == Status.WARN) = l.length ↔
        ∀ x ∈ l, x.status ≠ Status.SKIP) := by
  induction l with
  | nil => simp
  | cons a l ih =>
    obtain ⟨h1, h2⟩ := ih
    cases ha : a.status
    case PASS =>
      simp only [List.countP_cons, ha, List.length_cons, List.mem_cons, forall_eq_or_imp]
      simp
      constructor
      · omega
      · constructor
        · intro hh
          exact h2.mp (by omega)
        · intro hh
          have h3 := h2.mpr hh
          omega
    case FAIL =>
      simp only [List.countP_cons, ha, List.length_cons, List.mem_cons, forall_eq_or_imp]
      simp
      constructor
      · omega
      · constructor
        · intro hh
          exact h2.mp (by omega)
        · intro hh
          have h3 := h2.mpr hh
          omega
    case WARN =>
      simp only [List.countP_cons, ha, List.length_cons, List.mem_cons, forall_eq_or_imp]
      simp
      constructor
      · omega
      · constructor
        · intro hh
          exact h2.mp (by omega)
        · intro hh
          have h3 := h2.mpr hh
          omega
    case SKIP =>
      simp only [List.countP_cons, ha, List.length_cons, List.mem_cons, forall_eq_or_imp]
      simp
      constructor
      · omega
      · omega

/-- Claim C2: for every VerificationReport, the derived counts passed,
failed and warnings each equal the exact number of results with status PASS,
FAIL and WARN respectively; hence their sum is at most the number of
results, with equality exactly when no result has status SKIP. -/
theorem c2_report_counts (r : Report) :
    r.passed = r.results.countP (fun x => x.status == Status.PASS) ∧
    r.failed = r.results.countP (fun x => x.status == Status.FAIL) ∧
    r.warnings = r.results.countP (fun x => x.status == Status.WARN) ∧
    r.passed + r.failed + r.warnings ≤ r.results.length ∧
    (r.passed + r.failed + r.warnings = r.results.length ↔
      ∀ x ∈ r.results, x.status ≠ Status.SKIP) := by
  obtain ⟨h1, h2⟩ := counts_le_and_iff r.results
  exact ⟨rfl, rfl, rfl, h1, h2⟩

/-- Claim C9: `check_file_exists` returns (PASS, empty message) whenever any
filesystem entry exists at the path, the test not depending on whether the
entry is a directory; in particular a file-existence check of the catalog
reports PASS when the named artifact is a directory. -/
theorem c9_exists_pass_includes_directories (fs : PyFS) (p : String) (fstat : Status)
    (fmsg : Option String) (path : String) (r : Report) :
    (fs.exists_ p = true → check_file_exists fs p fstat fmsg = (Status.PASS, "")) ∧
    (fs.exists_ (pjoin path "README.md") = true →
      fs.is_dir (pjoin path "README.md") = true →
      check_readme fs path r = Except.ok (r.add "README.md exists" Status.PASS "")) := by
  constructor
  · intro h
    simp [check_file_exists, h]
  · intro h _
    simp [check_readme, check_file_exists, h]

/-- Witness for C9 at a concrete filesystem whose README.md is a directory. -/
theorem c9_witness :
    fsDirReadme.exists_ "proj/README.md" = true ∧
    fsDirReadme.is_dir "proj/README.md" = true ∧
    check_file_exists fsDirReadme "proj/README.md" Status.FAIL none = (Status.PASS, "") ∧
    check_readme fsDirReadme "proj" ⟨"proj", [], []⟩ =
      Except.ok (Report.add ⟨"proj", [], []⟩ "README.md exists" Status.PASS "") :=
  ⟨rfl, rfl,
    (c9_exists_pass_includes_directories fsDirReadme "proj/README.md" Status.FAIL none
      "proj" ⟨"proj", [], []⟩).1 rfl,
    (c9_exists_pass_includes_directories fsDirReadme "proj/README.md" Status.FAIL none
      "proj" ⟨"proj", [], []⟩).2 rfl rfl⟩

/-- Claim C6: when the path does not designate an existing directory,
`verify_project` terminates fatally at once, with no check run and no report
content; and the fatal termination happens in no other situation, making the
directory test the only centrally enforced precondition. -/
theorem c6_fatal_on_non_directory (fs : PyFS) (path : String) :
    (fs.is_dir path = false →
      verify_project fs path = Except.error VerifyErr.fatalNotADirectory) ∧
    (fs.is_dir path = true →
      verify_project fs path ≠ Except.error VerifyErr.fatalNotADirectory) := by
  constructor
  · intro h
    simp [verify_project, h]
  · intro h
    simp only [verify_project, h, Bool.not_true, Bool.false_eq_true, if_false]
    split
    · simp
    · split <;> simp

/-- Witness for C6: a concrete non-directory path exits fatally, and a
concrete directory does not. -/
theorem c6_witness :
    fsNoDir.is_dir "proj" = false ∧
    verify_project fsNoDir "proj" = Except.error VerifyErr.fatalNotADirectory ∧
    fsNone.is_dir "proj" = true ∧
    verify_project fsNone "proj" ≠ Except.error VerifyErr.fatalNotADirectory :=
  ⟨rfl, (c6_fatal_on_non_directory fsNoDir "proj").1 rfl, rfl,
    (c6_fatal_on_non_directory fsNone "proj").2 rfl⟩

lemma foldlM_traced (path : String) (ids : List Nat) (t : List (Nat × String)) :
    (ids.map traced).foldlM
        (fun (r : List (Nat × String)) (c : String → List (Nat × String)
          → Except PyErr (List (Nat × String))) => c path r) t
      = Except.ok (t ++ ids.map (fun i => (i, path))) := by
  induction ids generalizing t with
  | nil => simp [List.foldlM, pure, Except.pure]
  | cons i ids ih => simp [List.foldlM, traced, ih, bind, Except.bind]

lemma foldlM_append_langs (path : String) (lids : Language → List Nat)
    (langs : List Language) (t : List (Nat × String)) :
    langs.foldlM
        (fun (r : List (Nat × String)) (language : Language) =>
          (Except.ok (r ++ (lids language).map (fun i => (i, path)))
            : Except PyErr (List (Nat × String)))) t
      = Except.ok (t ++ langs.flatMap (fun language => (lids language).map (fun i => (i, path)))) := by
  induction langs generalizing t with
  | nil => simp [List.foldlM, pure, Except.pure]
  | cons language langs ih => simp [List.foldlM, ih, bind, Except.bind, List.append_assoc]

lemma count_map_pair (l : List Nat) (i : Nat) (path : String) :
    (l.map (fun j => (j, path))).count (i, path) = l.count i := by
  induction l with
  | nil => simp
  | cons a l ih =>
    by_cases h : a = i <;> simp [List.count_cons, h, ih]

/-- Claim C1: with instrumented procedures, `run_all_checks` produces the
invocation trace of every common procedure first, in registration order,
then each applicable language group in order, every invocation receiving the
given path and the threaded report state; a procedure id appearing in no
applicable registration list is never invoked, and an id registered exactly
once among the common procedures and under no applicable language is invoked
exactly once. -/
theorem c1_run_all_checks_order (cids : List Nat) (lids : Language → List Nat)
    (path : String) (langs : List Language) :
    run_all_checks (cids.map traced) (fun language => (lids language).map traced) path langs []
      = Except.ok ((cids ++ langs.flatMap lids).map (fun i => (i, path))) ∧
    (∀ i, i ∉ cids → (∀ language ∈ langs, i ∉ lids language) →
      ∀ q ∈ (cids ++ langs.flatMap lids).map (fun i => (i, path)), q.1 ≠ i) ∧
    (∀ i, cids.count i = 1 → (∀ language ∈ langs, i ∉ lids language) →
      ((cids ++ langs.flatMap lids).map (fun i => (i, path))).count (i, path) = 1) := by
  refine ⟨?_, ?_, ?_⟩
  · simp only [run_all_checks, foldlM_traced, Except.bind, foldlM_append_langs]
    simp [List.map_append, List.map_flatMap]
  · intro i hc hl q hq
    simp only [List.mem_map, List.mem_append, List.mem_flatMap] at hq
    obtain ⟨j, hj, rfl⟩ := hq
    rcases hj with hj | ⟨language, hlang, hj⟩
    · intro h
      have hji : j = i := h
      exact hc (hji ▸ hj)
    · intro h
      have hji : j = i := h
      exact hl language hlang (hji ▸ hj)
  · intro i hc hl
    have hz : (langs.flatMap lids).count i = 0 := by
      simp only [List.count_eq_zero, List.mem_flatMap, not_exists]
      intro language hmem
      rcases hmem with ⟨hlang, hin⟩
      exact hl language hlang hin
    rw [List.map_append, List.count_append, count_map_pair, count_map_pair, hc, hz]

/-- Witness for C1 at a concrete registry and language set. -/
theorem c1_witness :
    run_all_checks ([0, 1].map traced) (fun language => (lidsW language).map traced) "p"
        [Language.RUST] []
      = Except.ok (([0, 1] ++ [Language.RUST].flatMap lidsW).map (fun i => (i, "p"))) ∧
    (∀ q ∈ ([0, 1] ++ [Language.RUST].flatMap lidsW).map (fun i => (i, "p")), q.1 ≠ 2) ∧
    (([0, 1] ++ [Language.RUST].flatMap lidsW).map (fun i => (i, "p"))).count (0, "p") = 1 := by
  have h := c1_run_all_checks_order [0, 1] lidsW "p" [Language.RUST]
  refine ⟨h.1, h.2.1 2 (by decide) ?_, h.2.2 0 (by decide) ?_⟩
  · intro language hlang
    simp only [List.mem_singleton] at hlang
    subst hlang
    simp [lidsW]
  · intro language hlang
    simp only [List.mem_singleton] at hlang
    subst hlang
    simp [lidsW]

/-- Claim C8: `register_common` returns the registered procedure itself
while appending it to the common list, and registering the same procedure
twice makes a run invoke it twice. -/
theorem c8_register_common_identity {χ : Type} (f : χ) (reg : Registry χ) (i : Nat)
    (path : String) :
    (register_common f reg).1 = f ∧
    (register_common f reg).2.common = reg.common ++ [f] ∧
    (register_common f reg).2.language = reg.language ∧
    run_all_checks
        (register_common (traced i) (register_common (traced i)
          (⟨[], fun _ => []⟩ : Registry (String → List (Nat × String)
            → Except PyErr (List (Nat × String))))).2).2.common
        (fun _ => []) path [] []
      = Except.ok [(i, path), (i, path)] := by
  refine ⟨rfl, rfl, rfl, ?_⟩
  simp [register_common, run_all_checks, List.foldlM, traced, Except.bind, bind, pure, Except.pure]

lemma specres_refl (names : List String) (r : Report) : SpecRes names r r :=
  ⟨[], by simp, by simp⟩

lemma specres_add {names : List String} {r r2 : Report} {n : String} {s : Status} {m : String}
    (h : SpecRes names r r2) (hn : n ∈ names) (hs : s ≠ Status.SKIP) :
    SpecRes names r (r2.add n s m) := by
  obtain ⟨ds, hds, hall⟩ := h
  refine ⟨ds ++ [⟨n, s, m⟩], by simp [Report.add, hds], ?_⟩
  intro x hx
  rcases List.mem_append.mp hx with hx | hx
  · exact hall x hx
  · simp only [List.mem_singleton] at hx
    subst hx
    exact ⟨hn, hs⟩

lemma specres_trans {names : List String} {r r2 r3 : Report}
    (h1 : SpecRes names r r2) (h2 : SpecRes names r2 r3) : SpecRes names r r3 := by
  obtain ⟨ds1, hds1, hall1⟩ := h1
  obtain ⟨ds2, hds2, hall2⟩ := h2
  refine ⟨ds1 ++ ds2, by simp [hds2, hds1], ?_⟩
  intro x hx
  rcases List.mem_append.mp hx with hx | hx
  · exact hall1 x hx
  · exact hall2 x hx

lemma specres_mono {names names2 : List String} {r r2 : Report}
    (h : SpecRes names r r2) (hsub : ∀ n ∈ names, n ∈ names2) : SpecRes names2 r r2 := by
  obtain ⟨ds, hds, hall⟩ := h
  exact ⟨ds, hds, fun x hx => ⟨hsub x.name (hall x hx).1, (hall x hx).2⟩⟩

lemma specres_ec {r r2 : Report} {content name setting : String}
    (h : SpecRes editorconfigNames r r2)
    (hn : (".editorconfig has " ++ name) ∈ editorconfigNames) :
    SpecRes editorconfigNames r (ec_setting content r2 name setting) := by
  unfold ec_setting
  split
  · exact specres_add h hn (by decide)
  · exact specres_add h hn (by decide)

lemma specres_addIf {names : List String} {r r2 : Report} {cond : Bool} {n : String}
    {st : Status} {mt : String} {sf : Status} {mf : String}
    (h : SpecRes names r r2) (hn : n ∈ names) (ht : st ≠ Status.SKIP)
    (hf : sf ≠ Status.SKIP) : SpecRes names r (addIf cond r2 n st mt sf mf) := by
  unfold addIf
  split
  · exact specres_add h hn ht
  · exact specres_add h hn hf

lemma specres_ruff_ignore {r r2 : Report} {hasALL : Bool} {ignore : Value}
    (h : SpecRes ruffLintNames r r2) :
    SpecRes ruffLintNames r (ruff_ignore_add hasALL ignore r2) := by
  unfold ruff_ignore_add
  split
  · exact specres_add h (by decide) (by decide)
  · split
    · exact specres_add h (by decide) (by decide)
    · exact h

lemma countName_add (r : Report) (n : String) (s : Status) (m : String) (t : String) :
    countName (r.add n s m) t = countName r t + (if n == t then 1 else 0) := by
  simp [countName, Report.add, List.countP_append, List.countP_cons]

lemma countNameStatus_add (r : Report) (n : String) (s : Status) (m : String)
    (t : String) (u : Status) :
    countNameStatus (r.add n s m) t u
      = countNameStatus r t u + (if n == t && s == u then 1 else 0) := by
  simp [countNameStatus, Report.add, List.countP_append, List.countP_cons]

lemma countName_ec (content : String) (r : Report) (name setting : String) (t : String) :
    countName (ec_setting content r name setting) t
      = countName r t + (if (".editorconfig has " ++ name) == t then 1 else 0) := by
  unfold ec_setting
  split <;> simp [countName_add]

lemma specres_countName_ge {names : List String} {r r2 : Report}
    (h : SpecRes names r r2) (n : String) : countName r n ≤ countName r2 n := by
  obtain ⟨ds, hds, _⟩ := h
  simp only [countName, hds, List.countP_append]
  exact Nat.le_add_right _ _

lemma specres_countName_eq {names : List String} {r r2 : Report}
    (h : SpecRes names r r2) (n : String) (hn : n ∉ names) :
    countName r2 n = countName r n := by
  obtain ⟨ds, hds, hall⟩ := h
  have hz : ds.countP (fun x => x.name == n) = 0 := by
    rw [List.countP_eq_zero]
    intro x hx
    have := (hall x hx).1
    simp only [beq_iff_eq]
    intro he
    exact hn (he ▸ this)
  simp [countName, hds, List.countP_append, hz]

lemma specres_countNameStatus_eq {names : List String} {r r2 : Report}
    (h : SpecRes names r r2) (n : String) (u : Status) (hn : n ∉ names) :
    countNameStatus r2 n u = countNameStatus r n u := by
  obtain ⟨ds, hds, hall⟩ := h
  have hz : ds.countP (fun x => x.name == n && x.status == u) = 0 := by
    rw [List.countP_eq_zero]
    intro x hx
    have := (hall x hx).1
    simp only [Bool.and_eq_true, beq_iff_eq, not_and]
    intro he
    exact absurd (he ▸ this) hn
  simp [countNameStatus, hds, List.countP_append, hz]

lemma except_bind_ok {ε α β : Type} (a : Except ε α) (f : α → Except ε β) (b : β) :
    a.bind f = Except.ok b ↔ ∃ x, a = Except.ok x ∧ f x = Except.ok b := by
  cases a <;> simp [Except.bind]

lemma foldlM_nil {α : Type} (g : Report → α → Except PyErr Report) (r : Report) :
    List.foldlM g r [] = Except.ok r := rfl

lemma foldlM_cons {α : Type} (g : Report → α → Except PyErr Report) (a : α) (xs : List α)
    (r : Report) :
    List.foldlM g r (a :: xs) = (g r a).bind (fun r1 => List.foldlM g r1 xs) := rfl

lemma foldlM_specgen {α : Type} (names : List String) (g : Report → α → Except PyErr Report)
    (xs : List α) (hall : ∀ a ∈ xs, ∀ r r2, g r a = Except.ok r2 → SpecRes names r r2) :
    ∀ r r2, List.foldlM g r xs = Except.ok r2 → SpecRes names r r2 := by
  induction xs with
  | nil =>
    intro r r2 h
    rw [foldlM_nil] at h
    cases h
    exact specres_refl _ _
  | cons a xs ih =>
    intro r r2 h
    rw [foldlM_cons, except_bind_ok] at h
    obtain ⟨r1, h1, h2⟩ := h
    refine specres_trans (hall a (by simp) r r1 h1) ?_
    exact ih (fun b hb => hall b (by simp [hb]) ) r1 r2 h2

lemma foldlM_presence {α : Type} (names : List String) (g : Report → α → Except PyErr Report)
    (xs : List α) (hall : ∀ a ∈ xs, ∀ r r2, g r a = Except.ok r2 → SpecRes names r r2)
    (c : α) (hc : c ∈ xs) (n : String)
    (hadds : ∀ r r2, g r c = Except.ok r2 → 1 ≤ countName r2 n) :
    ∀ r r2, List.foldlM g r xs = Except.ok r2 → 1 ≤ countName r2 n := by
  induction xs with
  | nil => cases hc
  | cons a xs ih =>
    intro r r2 h
    rw [foldlM_cons, except_bind_ok] at h
    obtain ⟨r1, h1, h2⟩ := h
    rcases List.mem_cons.mp hc with hc1 | hc1
    · subst hc1
      have hcount := hadds r r1 h1
      have hspec := foldlM_specgen names g xs
        (fun b hb => hall b (by simp [hb])) r1 r2 h2
      exact le_trans hcount (specres_countName_ge hspec n)
    · exact ih (fun b hb => hall b (by simp [hb])) hc1 r1 r2 h2

lemma check_readme_spec (fs : PyFS) (p : String) (r r2 : Report)
    (h : check_readme fs p r = Except.ok r2) : SpecRes readmeNames r r2 := by
  simp only [check_readme, check_file_exists] at h
  repeat' (first
    | (split at h)
    | (simp at h))
  all_goals (first
    | (cases h)
    | (subst h))
  all_goals repeat
    first
    | exact specres_refl _ _
    | refine specres_add ?_ (by decide) (by decide)

lemma check_license_spec (fs : PyFS) (p : String) (r r2 : Report)
    (h : check_license fs p r = Except.ok r2) : SpecRes licenseNames r r2 := by
  simp only [check_license, check_file_exists] at h
  repeat' (first
    | (split at h)
    | (simp at h))
  all_goals (first
    | (cases h)
    | (subst h))
  all_goals repeat
    first
    | exact specres_refl _ _
    | refine specres_add ?_ (by decide) (by decide)

lemma check_devbox_spec (fs : PyFS) (p : String) (r r2 : Report)
    (h : check_devbox fs p r = Except.ok r2) : SpecRes devboxNames r r2 := by
  simp only [check_devbox, check_file_exists] at h
  repeat' (first
    | (split at h)
    | (simp at h))
  all_goals (first
    | (cases h)
    | (subst h))
  all_goals repeat
    first
    | exact specres_refl _ _
    | refine specres_add ?_ (by decide) (by decide)

lemma check_changelog_spec (fs : PyFS) (p : String) (r r2 : Report)
    (h : check_changelog fs p r = Except.ok r2) : SpecRes changelogNames r r2 := by
  simp only [check_changelog, check_file_exists] at h
  repeat' (first
    | (split at h)
    | (simp at h))
  all_goals (first
    | (cases h)
    | (subst h))
  all_goals repeat
    first
    | exact specres_refl _ _
    | refine specres_add ?_ (by decide) (by decide)

lemma check_gitignore_spec (fs : PyFS) (p : String) (r r2 : Report)
    (h : check_gitignore fs p r = Except.ok r2) : SpecRes gitignoreNames r r2 := by
  simp only [check_gitignore, check_file_exists] at h
  repeat' (first
    | (split at h)
    | (simp at h))
  all_goals (first
    | (cases h)
    | (subst h))
  all_goals repeat
    first
    | exact specres_refl _ _
    | refine specres_add ?_ (by decide) (by decide)

lemma check_gitatributes_spec (fs : PyFS) (p : String) (r r2 : Report)
    (h : check_gitatributes fs p r = Except.ok r2) : SpecRes gitattributesNames r r2 := by
  simp only [check_gitatributes, check_file_exists] at h
  repeat' (first
    | (split at h)
    | (simp at h))
  all_goals (first
    | (cases h)
    | (subst h))
  all_goals repeat
    first
    | exact specres_refl _ _
    | refine specres_add ?_ (by decide) (by decide)

lemma check_editorconfig_spec (fs : PyFS) (p : String) (r r2 : Report)
    (h : check_editorconfig fs p r = Except.ok r2) : SpecRes editorconfigNames r r2 := by
  simp only [check_editorconfig, check_file_exists] at h
  repeat' (first
    | (split at h)
    | (simp at h))
  all_goals (first
    | (cases h)
    | (subst h))
  all_goals repeat
    first
    | exact specres_refl _ _
    | refine specres_ec ?_ (by decide)
    | refine specres_add ?_ (by decide) (by decide)

lemma check_pre_commit_spec (fs : PyFS) (p : String) (r r2 : Report)
    (h : check_pre_commit fs p r = Except.ok r2) : SpecRes precommitNames r r2 := by
  simp only [check_pre_commit, check_file_exists] at h
  repeat' (first
    | (split at h)
    | (simp at h))
  all_goals (first
    | (cases h)
    | (subst h))
  all_goals repeat
    first
    | exact specres_refl _ _
    | refine specres_add ?_ (by decide) (by decide)

lemma check_renovate_spec (fs : PyFS) (p : String) (r r2 : Report)
    (h : check_renovate fs p r = Except.ok r2) : SpecRes renovateNames r r2 := by
  simp only [check_renovate, check_file_exists] at h
  repeat' (first
    | (split at h)
    | (simp at h))
  all_goals (first
    | (cases h)
    | (subst h))
  all_goals repeat
    first
    | exact specres_refl _ _
    | refine specres_add ?_ (by decide) (by decide)

lemma check_github_actions_spec (fs : PyFS) (p : String) (r r2 : Report)
    (h : check_github_actions fs p r = Except.ok r2) : SpecRes githubActionsNames r r2 := by
  simp only [check_github_actions, check_file_exists] at h
  repeat' (first
    | (split at h)
    | (simp at h))
  all_goals (first
    | (cases h)
    | (subst h))
  all_goals repeat
    first
    | exact specres_refl _ _
    | refine specres_add ?_ (by decide) (by decide)

lemma check_pyproject_toml_spec (fs : PyFS) (p : String) (r r2 : Report)
    (h : check_pyproject_toml fs p r = Except.ok r2) : SpecRes pyprojectNames r r2 := by
  simp only [check_pyproject_toml, check_file_exists] at h
  repeat' (first
    | (split at h)
    | (simp at h))
  all_goals (first
    | (cases h)
    | (subst h))
  all_goals repeat
    first
    | exact specres_refl _ _
    | refine specres_add ?_ (by decide) (by decide)

lemma check_src_layout_spec (fs : PyFS) (p : String) (r r2 : Report)
    (h : check_src_layout fs p r = Except.ok r2) : SpecRes srcLayoutNames r r2 := by
  simp only [check_src_layout, check_file_exists] at h
  repeat' (first
    | (split at h)
    | (simp at h))
  all_goals (first
    | (cases h)
    | (subst h))
  all_goals repeat
    first
    | exact specres_refl _ _
    | refine specres_add ?_ (by decide) (by decide)

lemma check_uv_lock_spec (fs : PyFS) (p : String) (r r2 : Report)
    (h : check_uv_lock fs p r = Except.ok r2) : SpecRes uvLockNames r r2 := by
  simp only [check_uv_lock, check_file_exists] at h
  repeat' (first
    | (split at h)
    | (simp at h))
  all_goals (first
    | (cases h)
    | (subst h))
  all_goals repeat
    first
    | exact specres_refl _ _
    | refine specres_add ?_ (by decide) (by decide)

lemma check_dependency_groups_spec (fs : PyFS) (p : String) (r r2 : Report)
    (h : check_dependency_groups fs p r = Except.ok r2) : SpecRes depGroupsNames r r2 := by
  simp only [check_dependency_groups, check_file_exists] at h
  repeat' (first
    | (split at h)
    | (simp at h))
  all_goals (first
    | (cases h)
    | (subst h))
  all_goals repeat
    first
    | exact specres_refl _ _
    | refine specres_add ?_ (by decide) (by decide)

lemma check_ruff_spec (fs : PyFS) (p : String) (r r2 : Report)
    (h : check_ruff fs p r = Except.ok r2) : SpecRes ruffNames r r2 := by
  simp only [check_ruff, check_file_exists] at h
  repeat' (first
    | (split at h)
    | (simp at h))
  all_goals (first
    | (cases h)
    | (subst h))
  all_goals repeat
    first
    | exact specres_refl _ _
    | refine specres_add ?_ (by decide) (by decide)

lemma check_ruff_lint_spec (fs : PyFS) (p : String) (r r2 : Report)
    (h : check_ruff_lint fs p r = Except.ok r2) : SpecRes ruffLintNames r r2 := by
  simp only [check_ruff_lint, check_file_exists] at h
  repeat' (first
    | (split at h)
    | (simp at h))
  all_goals (first
    | (cases h)
    | (subst h))
  all_goals repeat
    first
    | exact specres_refl _ _
    | exact specres_ruff_ignore (specres_refl _ _)
    | refine specres_ruff_ignore ?_
    | refine specres_addIf ?_ (by decide) (by decide) (by decide)
    | refine specres_add ?_ (by decide) (by decide)

lemma check_mypy_spec (fs : PyFS) (p : String) (r r2 : Report)
    (h : check_mypy fs p r = Except.ok r2) : SpecRes mypyNames r r2 := by
  simp only [check_mypy, check_file_exists] at h
  repeat' (first
    | (split at h)
    | (simp at h))
  all_goals (first
    | (cases h)
    | (subst h))
  all_goals repeat
    first
    | exact specres_refl _ _
    | refine specres_add ?_ (by decide) (by decide)

lemma check_python_precommit_hooks_spec (fs : PyFS) (p : String) (r r2 : Report)
    (h : check_python_precommit_hooks fs p r = Except.ok r2) : SpecRes pyPrecommitNames r r2 := by
  simp only [check_python_precommit_hooks, check_file_exists] at h
  repeat' (first
    | (split at h)
    | (simp at h))
  all_goals (first
    | (cases h)
    | (subst h))
  all_goals repeat
    first
    | exact specres_refl _ _
    | refine specres_add ?_ (by decide) (by decide)

lemma check_python_devbox_spec (fs : PyFS) (p : String) (r r2 : Report)
    (h : check_python_devbox fs p r = Except.ok r2) : SpecRes pyDevboxNames r r2 := by
  simp only [check_python_devbox, check_file_exists] at h
  repeat' (first
    | (split at h)
    | (simp at h))
  all_goals (first
    | (cases h)
    | (subst h))
  all_goals repeat
    first
    | exact specres_refl _ _
    | refine specres_add ?_ (by decide) (by decide)

lemma check_python_ci_spec (fs : PyFS) (p : String) (r r2 : Report)
    (h : check_python_ci fs p r = Except.ok r2) : SpecRes pyCiNames r r2 := by
  simp only [check_python_ci, check_file_exists] at h
  repeat' (first
    | (split at h)
    | (simp at h))
  all_goals (first
    | (cases h)
    | (subst h))
  all_goals repeat
    first
    | exact specres_refl _ _
    | refine specres_add ?_ (by decide) (by decide)

lemma check_readme_adds (fs : PyFS) (p : String) (r r2 : Report)
    (h : check_readme fs p r = Except.ok r2) : 1 ≤ countName r2 "README.md exists" := by
  simp only [check_readme, check_file_exists] at h
  repeat' (first
    | (split at h)
    | (simp at h))
  all_goals (first
    | (cases h)
    | (subst h))
  all_goals simp [countName_add]
  all_goals omega

lemma check_license_adds (fs : PyFS) (p : String) (r r2 : Report)
    (h : check_license fs p r = Except.ok r2) : 1 ≤ countName r2 "LICENSE exists" := by
  simp only [check_license, check_file_exists] at h
  repeat' (first
    | (split at h)
    | (simp at h))
  all_goals (first
    | (cases h)
    | (subst h))
  all_goals simp [countName_add]
  all_goals omega

lemma check_changelog_adds (fs : PyFS) (p : String) (r r2 : Report)
    (h : check_changelog fs p r = Except.ok r2) : 1 ≤ countName r2 "CHANGELOG.md exists" := by
  simp only [check_changelog, check_file_exists] at h
  repeat' (first
    | (split at h)
    | (simp at h))
  all_goals (first
    | (cases h)
    | (subst h))
  all_goals simp [countName_add]
  all_goals omega

lemma check_gitignore_adds (fs : PyFS) (p : String) (r r2 : Report)
    (h : check_gitignore fs p r = Except.ok r2) : 1 ≤ countName r2 ".gitignore exists" := by
  simp only [check_gitignore, check_file_exists] at h
  repeat' (first
    | (split at h)
    | (simp at h))
  all_goals (first
    | (cases h)
    | (subst h))
  all_goals simp [countName_add]
  all_goals omega

lemma check_gitatributes_adds (fs : PyFS) (p : String) (r r2 : Report)
    (h : check_gitatributes fs p r = Except.ok r2) : 1 ≤ countName r2 ".gitattributes exists" := by
  simp only [check_gitatributes, check_file_exists] at h
  repeat' (first
    | (split at h)
    | (simp at h))
  all_goals (first
    | (cases h)
    | (subst h))
  all_goals simp [countName_add]
  all_goals omega

lemma check_editorconfig_adds (fs : PyFS) (p : String) (r r2 : Report)
    (h : check_editorconfig fs p r = Except.ok r2) : 1 ≤ countName r2 ".editorconfig exists" := by
  simp only [check_editorconfig, check_file_exists] at h
  repeat' (first
    | (split at h)
    | (simp at h))
  all_goals (first
    | (cases h)
    | (subst h))
  all_goals simp [countName_ec, countName_add]
  all_goals omega

lemma check_devbox_adds (fs : PyFS) (p : String) (r r2 : Report)
    (h : check_devbox fs p r = Except.ok r2) : 1 ≤ countName r2 "devbox.json exists" := by
  simp only [check_devbox, check_file_exists] at h
  repeat' (first
    | (split at h)
    | (simp at h))
  all_goals (first
    | (cases h)
    | (subst h))
  all_goals simp [countName_add]
  all_goals omega

lemma check_pre_commit_adds (fs : PyFS) (p : String) (r r2 : Report)
    (h : check_pre_commit fs p r = Except.ok r2) : 1 ≤ countName r2 ".pre-commit-config.yaml exists" := by
  simp only [check_pre_commit, check_file_exists] at h
  repeat' (first
    | (split at h)
    | (simp at h))
  all_goals (first
    | (cases h)
    | (subst h))
  all_goals simp [countName_add]
  all_goals omega

lemma check_renovate_adds (fs : PyFS) (p : String) (r r2 : Report)
    (h : check_renovate fs p r = Except.ok r2) : 1 ≤ countName r2 "Renovate configuration exists" := by
  simp only [check_renovate, check_file_exists] at h
  repeat' (first
    | (split at h)
    | (simp at h))
  all_goals (first
    | (cases h)
    | (subst h))
  all_goals simp [countName_add]
  all_goals omega

lemma check_github_actions_adds (fs : PyFS) (p : String) (r r2 : Report)
    (h : check_github_actions fs p r = Except.ok r2) : 1 ≤ countName r2 "GitHub Actions workflows directory exists" := by
  simp only [check_github_actions, check_file_exists] at h
  repeat' (first
    | (split at h)
    | (simp at h))
  all_goals (first
    | (cases h)
    | (subst h))
  all_goals simp [countName_add]
  all_goals omega

lemma registered_common_eq (fs : PyFS) :
    registered_common fs = [check_readme fs, check_license fs, check_changelog fs,
      check_gitignore fs, check_gitatributes fs, check_editorconfig fs, check_devbox fs,
      check_pre_commit fs, check_renovate fs, check_github_actions fs] := rfl

lemma registered_language_python_eq (fs : PyFS) :
    registered_language fs Language.PYTHON = [check_pyproject_toml fs, check_src_layout fs,
      check_uv_lock fs, check_dependency_groups fs, check_ruff fs, check_ruff_lint fs,
      check_mypy fs, check_python_precommit_hooks fs, check_python_devbox fs,
      check_python_ci fs] := rfl

lemma registered_language_other (fs : PyFS) (l : Language) (h : l ≠ Language.PYTHON) :
    registered_language fs l = [] := by
  cases l
  · rfl
  · exact absurd rfl h
  · rfl
  · rfl

lemma registered_common_spec (fs : PyFS) (path : String) :
    ∀ c ∈ registered_common fs, ∀ r r2, c path r = Except.ok r2 →
      SpecRes commonNames r r2 := by
  intro c hc r r2 h
  rw [registered_common_eq] at hc
  simp only [List.mem_cons, List.not_mem_nil, or_false] at hc
  rcases hc with rfl | rfl | rfl | rfl | rfl | rfl | rfl | rfl | rfl | rfl
  · exact specres_mono (check_readme_spec fs path r r2 h) (by decide)
  · exact specres_mono (check_license_spec fs path r r2 h) (by decide)
  · exact specres_mono (check_changelog_spec fs path r r2 h) (by decide)
  · exact specres_mono (check_gitignore_spec fs path r r2 h) (by decide)
  · exact specres_mono (check_gitatributes_spec fs path r r2 h) (by decide)
  · exact specres_mono (check_editorconfig_spec fs path r r2 h) (by decide)
  · exact specres_mono (check_devbox_spec fs path r r2 h) (by decide)
  · exact specres_mono (check_pre_commit_spec fs path r r2 h) (by decide)
  · exact specres_mono (check_renovate_spec fs path r r2 h) (by decide)
  · exact specres_mono (check_github_actions_spec fs path r r2 h) (by decide)

lemma registered_python_spec (fs : PyFS) (path : String) :
    ∀ c ∈ registered_language fs Language.PYTHON, ∀ r r2, c path r = Except.ok r2 →
      SpecRes pythonNames r r2 := by
  intro c hc r r2 h
  rw [registered_language_python_eq] at hc
  simp only [List.mem_cons, List.not_mem_nil, or_false] at hc
  rcases hc with rfl | rfl | rfl | rfl | rfl | rfl | rfl | rfl | rfl | rfl
  · exact specres_mono (check_pyproject_toml_spec fs path r r2 h) (by decide)
  · exact specres_mono (check_src_layout_spec fs path r r2 h) (by decide)
  · exact specres_mono (check_uv_lock_spec fs path r r2 h) (by decide)
  · exact specres_mono (check_dependency_groups_spec fs path r r2 h) (by decide)
  · exact specres_mono (check_ruff_spec fs path r r2 h) (by decide)
  · exact specres_mono (check_ruff_lint_spec fs path r r2 h) (by decide)
  · exact specres_mono (check_mypy_spec fs path r r2 h) (by decide)
  · exact specres_mono (check_python_precommit_hooks_spec fs path r r2 h) (by decide)
  · exact specres_mono (check_python_devbox_spec fs path r r2 h) (by decide)
  · exact specres_mono (check_python_ci_spec fs path r r2 h) (by decide)

lemma registered_any_spec (fs : PyFS) (path : String) (l : Language) :
    ∀ c ∈ registered_language fs l, ∀ r r2, c path r = Except.ok r2 →
      SpecRes allNames r r2 := by
  intro c hc r r2 h
  by_cases hl : l = Language.PYTHON
  · subst hl
    exact specres_mono (registered_python_spec fs path c hc r r2 h)
      (by intro n hn; simp [allNames, hn])
  · rw [registered_language_other fs l hl] at hc
    cases hc

lemma run_all_checks_spec (fs : PyFS) (path : String) (langs : List Language)
    (r r2 : Report)
    (h : run_all_checks (registered_common fs) (registered_language fs) path langs r
      = Except.ok r2) : SpecRes allNames r r2 := by
  unfold run_all_checks at h
  rw [except_bind_ok] at h
  obtain ⟨r1, h1, h2⟩ := h
  have s1 : SpecRes allNames r r1 := by
    refine foldlM_specgen allNames _ _ ?_ r r1 h1
    intro c hc r0 r3 h0
    exact specres_mono (registered_common_spec fs path c hc r0 r3 h0)
      (by intro n hn; simp [allNames, hn])
  have s2 : SpecRes allNames r1 r2 := by
    refine foldlM_specgen allNames _ _ ?_ r1 r2 h2
    intro l hl r0 r3 h0
    exact foldlM_specgen allNames _ _ (registered_any_spec fs path l) r0 r3 h0
  exact specres_trans s1 s2

/-- Claim C10: no registered check procedure ever appends a SKIP result (its
appended results are all drawn from the catalog names with non-SKIP status),
the orchestrator appends only the WARN language note, and therefore every
report a run produces satisfies passed + failed + warnings = len(results). -/
theorem c10_no_skip (fs : PyFS) (path : String) :
    (∀ (l : Language) (c : CheckFun), (c ∈ registered_common fs ∨ c ∈ registered_language fs l) →
      ∀ r0 r2, c path r0 = Except.ok r2 → SpecRes allNames r0 r2) ∧
    (∀ r, verify_project fs path = Except.ok r →
      (∀ x ∈ r.results, x.status ≠ Status.SKIP) ∧
      r.passed + r.failed + r.warnings = r.results.length) := by
  constructor
  · intro l c hc r0 r2 h
    rcases hc with hc | hc
    · exact specres_mono (registered_common_spec fs path c hc r0 r2 h)
        (by intro n hn; simp [allNames, hn])
    · exact registered_any_spec fs path l c hc r0 r2 h
  · intro r h
    simp only [verify_project] at h
    split at h
    · cases h
    · split at h
      · cases h
      · have hrun := run_all_checks_spec fs path _ _ _ (by assumption)
        have hnoskip : ∀ x ∈ r.results, x.status ≠ Status.SKIP := by
          obtain ⟨ds, hds, hall⟩ := hrun
          split at h
          · cases h
            intro x hx
            simp only [Report.add, hds] at hx ⊢
            simp only [List.nil_append] at hx
            rcases List.mem_append.mp hx with hx | hx
            · exact (hall x hx).2
            · simp only [List.mem_singleton] at hx
              subst hx
              decide
          · cases h
            intro x hx
            simp only [hds, List.nil_append] at hx
            exact (hall x hx).2
        refine ⟨hnoskip, ?_⟩
        exact ((counts_le_and_iff r.results).2).mpr hnoskip

/-- Witness for C10 at a concrete completed run. -/
theorem c10_witness :
    verify_project fsNone "proj" = Except.ok rNone ∧
    ((∀ x ∈ rNone.results, x.status ≠ Status.SKIP) ∧
      rNone.passed + rNone.failed + rNone.warnings = rNone.results.length) :=
  ⟨rfl, (c10_no_skip fsNone "proj").2 rNone rfl⟩

/-- Claim C5: on a directory with none of the four language marker files,
`detect_languages` returns the empty set; the run then consists of exactly
the common checks followed by one orchestrator-appended WARN result named
Language detection (so that name occurs exactly once, with status WARN, and
the orchestrator appends no PASS or FAIL result), and every common check has
run, each leaving its leading result in the report. -/
theorem c5_no_language (fs : PyFS) (path : String) (r : Report)
    (h1 : fs.is_dir path = true)
    (h2 : fs.exists_ (pjoin path "CMakeLists.txt") = false)
    (h3 : fs.exists_ (pjoin path "pyproject.toml") = false)
    (h4 : fs.exists_ (pjoin path "Cargo.toml") = false)
    (h5 : fs.exists_ (pjoin path "package.json") = false)
    (h : verify_project fs path = Except.ok r) :
    detect_languages fs path = [] ∧
    (∃ rc, run_all_checks (registered_common fs) (registered_language fs) path []
        ⟨path, [], []⟩ = Except.ok rc ∧
      r.results = rc.results ++ [⟨"Language detection", Status.WARN,
        "No supported programming languages detected"⟩] ∧
      countName r "Language detection" = 1 ∧
      countNameStatus r "Language detection" Status.WARN = 1) ∧
    (∀ n ∈ commonFirstNames, 1 ≤ countName r n) := by
  have hdet : detect_languages fs path = [] := by
    simp [detect_languages, h2, h3, h4, h5]
  simp only [verify_project, hdet, h1] at h
  simp at h
  split at h
  · cases h
  · cases h
    rename_i rep heq
    have hspec := run_all_checks_spec fs path [] ⟨path, [], []⟩ rep heq
    have hzero : countName rep "Language detection" = 0 := by
      have := specres_countName_eq hspec "Language detection" (by decide)
      simpa [countName] using this
    have hzero2 : countNameStatus rep "Language detection" Status.WARN = 0 := by
      have := specres_countNameStatus_eq hspec "Language detection" Status.WARN (by decide)
      simpa [countNameStatus] using this
    refine ⟨hdet, ⟨rep, heq, by simp [Report.add], ?_, ?_⟩, ?_⟩
    · simp [countName_add, hzero]
    · simp [countNameStatus_add, hzero2]
    · have hcommon : List.foldlM
          (fun (r : Report) (c : String → Report → Except PyErr Report) => c path r)
          ⟨path, [], []⟩ (registered_common fs) = Except.ok rep := by
        unfold run_all_checks at heq
        rw [except_bind_ok] at heq
        obtain ⟨r1, hc, hl⟩ := heq
        rw [foldlM_nil] at hl
        cases hl
        exact hc
      intro n hn
      have hle : 1 ≤ countName rep n := by
        fin_cases hn
        · exact foldlM_presence commonNames _ (registered_common fs)
            (registered_common_spec fs path) (check_readme fs)
            (by rw [registered_common_eq]; simp) "README.md exists"
            (fun r0 r2 h0 => check_readme_adds fs path r0 r2 h0) _ _ hcommon
        · exact foldlM_presence commonNames _ (registered_common fs)
            (registered_common_spec fs path) (check_license fs)
            (by rw [registered_common_eq]; simp) "LICENSE exists"
            (fun r0 r2 h0 => check_license_adds fs path r0 r2 h0) _ _ hcommon
        · exact foldlM_presence commonNames _ (registered_common fs)
            (registered_common_spec fs path) (check_changelog fs)
            (by rw [registered_common_eq]; simp) "CHANGELOG.md exists"
            (fun r0 r2 h0 => check_changelog_adds fs path r0 r2 h0) _ _ hcommon
        · exact foldlM_presence commonNames _ (registered_common fs)
            (registered_common_spec fs path) (check_gitignore fs)
            (by rw [registered_common_eq]; simp) ".gitignore exists"
            (fun r0 r2 h0 => check_gitignore_adds fs path r0 r2 h0) _ _ hcommon
        · exact foldlM_presence commonNames _ (registered_common fs)
            (registered_common_spec fs path) (check_gitatributes fs)
            (by rw [registered_common_eq]; simp) ".gitattributes exists"
            (fun r0 r2 h0 => check_gitatributes_adds fs path r0 r2 h0) _ _ hcommon
        · exact foldlM_presence commonNames _ (registered_common fs)
            (registered_common_spec fs path) (check_editorconfig fs)
            (by rw [registered_common_eq]; simp) ".editorconfig exists"
            (fun r0 r2 h0 => check_editorconfig_adds fs path r0 r2 h0) _ _ hcommon
        · exact foldlM_presence commonNames _ (registered_common fs)
            (registered_common_spec fs path) (check_devbox fs)
            (by rw [registered_common_eq]; simp) "devbox.json exists"
            (fun r0 r2 h0 => check_devbox_adds fs path r0 r2 h0) _ _ hcommon
        · exact foldlM_presence commonNames _ (registered_common fs)
            (registered_common_spec fs path) (check_pre_commit fs)
            (by rw [registered_common_eq]; simp) ".pre-commit-config.yaml exists"
            (fun r0 r2 h0 => check_pre_commit_adds fs path r0 r2 h0) _ _ hcommon
        · exact foldlM_presence commonNames _ (registered_common fs)
            (registered_common_spec fs path) (check_renovate fs)
            (by rw [registered_common_eq]; simp) "Renovate configuration exists"
            (fun r0 r2 h0 => check_renovate_adds fs path r0 r2 h0) _ _ hcommon
        · exact foldlM_presence commonNames _ (registered_common fs)
            (registered_common_spec fs path) (check_github_actions fs)
            (by rw [registered_common_eq]; simp) "GitHub Actions workflows directory exists"
            (fun r0 r2 h0 => check_github_actions_adds fs path r0 r2 h0) _ _ hcommon
      simp [countName_add]
      omega

/-- Witness for C5 at the concrete empty project directory. -/
theorem c5_witness :
    fsNone.is_dir "proj" = true ∧
    fsNone.exists_ (pjoin "proj" "CMakeLists.txt") = false ∧
    fsNone.exists_ (pjoin "proj" "pyproject.toml") = false ∧
    fsNone.exists_ (pjoin "proj" "Cargo.toml") = false ∧
    fsNone.exists_ (pjoin "proj" "package.json") = false ∧
    verify_project fsNone "proj" = Except.ok rNone ∧
    (detect_languages fsNone "proj" = [] ∧
      (∃ rc, run_all_checks (registered_common fsNone) (registered_language fsNone) "proj" []
          ⟨"proj", [], []⟩ = Except.ok rc ∧
        rNone.results = rc.results ++ [⟨"Language detection", Status.WARN,
          "No supported programming languages detected"⟩] ∧
        countName rNone "Language detection" = 1 ∧
        countNameStatus rNone "Language detection" Status.WARN = 1) ∧
      (∀ n ∈ commonFirstNames, 1 ≤ countName rNone n)) :=
  ⟨rfl, rfl, rfl, rfl, rfl, rfl,
    c5_no_language fsNone "proj" rNone rfl rfl rfl rfl rfl rfl⟩

/-- Claim C7: two runs over an unchanged directory are two evaluations of
the same function of the filesystem snapshot — every implemented check reads
only that snapshot and embeds no other data — so the two reports carry
identical (name, status) sequences (indeed they are equal outright). -/
theorem c7_idempotent (fs : PyFS) (path : String) (r1 r2 : Report)
    (ha : verify_project fs path = Except.ok r1)
    (hb : verify_project fs path = Except.ok r2) :
    pairsNS r1 = pairsNS r2 ∧ r1 = r2 := by
  rw [ha] at hb
  cases hb
  exact ⟨rfl, rfl⟩

/-- Witness for C7 at a concrete repeated run. -/
theorem c7_witness :
    verify_project fsNone "proj" = Except.ok rNone ∧
    (pairsNS rNone = pairsNS rNone ∧ rNone = rNone) :=
  ⟨rfl, c7_idempotent fsNone "proj" rNone rNone rfl rfl⟩

/-- Counterexample to C3 as stated: a devbox.json holding the syntactically
valid JSON array [] is an expected project deficiency (malformed content of
an existing config file), yet `check_devbox` calls the mapping lookup on the
parsed list, raises AttributeError, and the whole run aborts instead of
recording a FAIL or WARN result. -/
theorem c3_counterexample :
    fsDevboxList.exists_ (pjoin "proj" "devbox.json") = true ∧
    fsDevboxList.parse_json (fsDevboxList.read_text (pjoin "proj" "devbox.json"))
      = some (Value.list []) ∧
    check_devbox fsDevboxList "proj" ⟨"proj", [], []⟩ = Except.error PyErr.attributeError ∧
    verify_project fsDevboxList "proj" = Except.error (VerifyErr.pyErr PyErr.attributeError) :=
  ⟨rfl, rfl, rfl, rfl⟩

/-- Claim C3 (amended): for a missing config file or config content that is
syntactically invalid (a parse error), the cited check procedures append
FAIL or WARN results and never raise — a missing devbox.json yields one FAIL
result, syntactically invalid JSON yields a FAIL validity result, and
`check_gitatributes` returns normally on every content, appending only
results from its catalog names; however, syntactically valid content of an
unexpected shape (a non-object top level) is not covered and may raise. -/
theorem c3_amended_no_raise (fs : PyFS) (path : String) (r : Report) :
    (fs.exists_ (pjoin path "devbox.json") = false →
      check_devbox fs path r = Except.ok (r.add "devbox.json exists" Status.FAIL
        ("Missing " ++ baseName (pjoin path "devbox.json")))) ∧
    (fs.exists_ (pjoin path "devbox.json") = true →
      fs.parse_json (fs.read_text (pjoin path "devbox.json")) = none →
      check_devbox fs path r = Except.ok ((r.add "devbox.json exists" Status.PASS "").add
        "devbox.json is valid JSON" Status.FAIL "Invalid JSON in devbox.json")) ∧
    (∃ r2, check_gitatributes fs path r = Except.ok r2 ∧ SpecRes gitattributesNames r r2) := by
  refine ⟨?_, ?_, ?_⟩
  · intro he
    simp [check_devbox, check_file_exists, he]
  · intro he hp
    simp [check_devbox, check_file_exists, he, hp]
  · obtain ⟨r2, hr2⟩ : ∃ r2, check_gitatributes fs path r = Except.ok r2 := by
      simp only [check_gitatributes, check_file_exists]
      repeat' split
      all_goals exact ⟨_, rfl⟩
    exact ⟨r2, hr2, check_gitatributes_spec fs path r r2 hr2⟩

/-- Witness for the amended C3 at concrete deficient projects. -/
theorem c3_witness :
    fsNone.exists_ (pjoin "proj" "devbox.json") = false ∧
    check_devbox fsNone "proj" ⟨"proj", [], []⟩ = Except.ok (Report.add ⟨"proj", [], []⟩
      "devbox.json exists" Status.FAIL ("Missing " ++ baseName (pjoin "proj" "devbox.json"))) ∧
    fsDevboxBadSyntax.exists_ (pjoin "proj" "devbox.json") = true ∧
    fsDevboxBadSyntax.parse_json
      (fsDevboxBadSyntax.read_text (pjoin "proj" "devbox.json")) = none ∧
    check_devbox fsDevboxBadSyntax "proj" ⟨"proj", [], []⟩ = Except.ok
      ((Report.add ⟨"proj", [], []⟩ "devbox.json exists" Status.PASS "").add
        "devbox.json is valid JSON" Status.FAIL "Invalid JSON in devbox.json") :=
  ⟨rfl, (c3_amended_no_raise fsNone "proj" ⟨"proj", [], []⟩).1 rfl, rfl, rfl,
    (c3_amended_no_raise fsDevboxBadSyntax "proj" ⟨"proj", [], []⟩).2.1 rfl rfl⟩

lemma check_pyproject_toml_invalid (fs : PyFS) (path : String) (r : Report) (e : String)
    (h2 : fs.exists_ (pjoin path "pyproject.toml") = true)
    (h3 : fs.parse_toml (fs.read_text (pjoin path "pyproject.toml")) = Except.error e) :
    check_pyproject_toml fs path r = Except.ok
      ((r.add "pyproject.toml exists" Status.PASS "").add
        "pyproject.toml valid TOML" Status.FAIL ("Invalid TOML: " ++ e)) := by
  simp [check_pyproject_toml, check_file_exists, h2, h3]

lemma check_dependency_groups_invalid (fs : PyFS) (path : String) (r : Report) (e : String)
    (h2 : fs.exists_ (pjoin path "pyproject.toml") = true)
    (h3 : fs.parse_toml (fs.read_text (pjoin path "pyproject.toml")) = Except.error e) :
    check_dependency_groups fs path r = Except.ok r := by
  simp [check_dependency_groups, check_file_exists, h2, h3]

lemma check_ruff_invalid (fs : PyFS) (path : String) (r : Report) (e : String)
    (h2 : fs.exists_ (pjoin path "pyproject.toml") = true)
    (h3 : fs.parse_toml (fs.read_text (pjoin path "pyproject.toml")) = Except.error e) :
    check_ruff fs path r = Except.ok r := by
  simp [check_ruff, check_file_exists, h2, h3]

lemma check_ruff_lint_invalid (fs : PyFS) (path : String) (r : Report) (e : String)
    (h2 : fs.exists_ (pjoin path "pyproject.toml") = true)
    (h3 : fs.parse_toml (fs.read_text (pjoin path "pyproject.toml")) = Except.error e) :
    check_ruff_lint fs path r = Except.ok r := by
  simp [check_ruff_lint, check_file_exists, h2, h3]

lemma check_mypy_invalid (fs : PyFS) (path : String) (r : Report) (e : String)
    (h2 : fs.exists_ (pjoin path "pyproject.toml") = true)
    (h3 : fs.parse_toml (fs.read_text (pjoin path "pyproject.toml")) = Except.error e) :
    check_mypy fs path r = Except.ok r := by
  simp [check_mypy, check_file_exists, h2, h3]

lemma nonpy_fold_id (fs : PyFS) (path : String) (langs : List Language)
    (hno : Language.PYTHON ∉ langs) (r : Report) :
    List.foldlM (fun (r : Report) (language : Language) =>
      List.foldlM (fun (r : Report) (c : String → Report → Except PyErr Report) => c path r) r
        (registered_language fs language)) r langs = Except.ok r := by
  induction langs generalizing r with
  | nil => rfl
  | cons l rest ih =>
    have hl : l ≠ Language.PYTHON := by
      intro hh
      subst hh
      exact hno (by simp)
    rw [foldlM_cons, registered_language_other fs l hl]
    simp only [foldlM_nil, Except.bind]
    exact ih (fun hh => hno (List.mem_cons_of_mem _ hh)) r

lemma langs_fold_python (fs : PyFS) (path : String) (langs : List Language)
    (hc : langs.count Language.PYTHON = 1) (r : Report) :
    List.foldlM (fun (r : Report) (language : Language) =>
      List.foldlM (fun (r : Report) (c : String → Report → Except PyErr Report) => c path r) r
        (registered_language fs language)) r langs
    = List.foldlM (fun (r : Report) (c : String → Report → Except PyErr Report) => c path r) r
        (registered_language fs Language.PYTHON) := by
  induction langs generalizing r with
  | nil => simp at hc
  | cons l rest ih =>
    by_cases hl : l = Language.PYTHON
    · subst hl
      have hrest : Language.PYTHON ∉ rest := by
        rw [List.count_cons_self] at hc
        exact List.count_eq_zero.mp (by omega)
      rw [foldlM_cons]
      cases hpy : List.foldlM
          (fun (r : Report) (c : String → Report → Except PyErr Report) => c path r) r
          (registered_language fs Language.PYTHON) with
      | error e => simp [Except.bind, hpy]
      | ok r1 =>
        simp only [hpy, Except.bind]
        exact nonpy_fold_id fs path rest hrest r1
    · have hc2 : rest.count Language.PYTHON = 1 := by
        rwa [List.count_cons_of_ne (fun hh => hl hh.symm)] at hc
      rw [foldlM_cons, registered_language_other fs l hl]
      simp only [foldlM_nil, Except.bind]
      exact ih hc2 r

lemma detect_count_python (fs : PyFS) (path : String)
    (h2 : fs.exists_ (pjoin path "pyproject.toml") = true) :
    (detect_languages fs path).count Language.PYTHON = 1 := by
  simp only [detect_languages, h2, if_true, List.count_append]
  split <;> split <;> split <;> simp

/-- Claim C4: when the Python manifest pyproject.toml exists but its content
fails to parse, a completed run reports exactly one PASS result for the
existence check and exactly one separate FAIL result for the validity check,
and emits no result at all under any of the nested manifest-content check
names (they are skipped, not failed). -/
theorem c4_invalid_manifest (fs : PyFS) (path : String) (e : String) (r : Report)
    (h1 : fs.is_dir path = true)
    (h2 : fs.exists_ (pjoin path "pyproject.toml") = true)
    (h3 : fs.parse_toml (fs.read_text (pjoin path "pyproject.toml")) = Except.error e)
    (h : verify_project fs path = Except.ok r) :
    countName r "pyproject.toml exists" = 1 ∧
    countNameStatus r "pyproject.toml exists" Status.PASS = 1 ∧
    countName r "pyproject.toml valid TOML" = 1 ∧
    countNameStatus r "pyproject.toml valid TOML" Status.FAIL = 1 ∧
    (∀ n ∈ nestedManifestNames, countName r n = 0) := by
  have hmem : Language.PYTHON ∈ detect_languages fs path := by
    simp [detect_languages, h2]
  simp only [verify_project, h1] at h
  simp at h
  split at h
  · cases h
  · rename_i rep heq
    split at h
    · rename_i hnil
      rw [hnil] at hmem
      cases hmem
    · cases h
      unfold run_all_checks at heq
      rw [except_bind_ok] at heq
      obtain ⟨r1, hc, hl⟩ := heq
      have s1 : SpecRes commonNames ⟨path, detect_languages fs path, []⟩ r1 :=
        foldlM_specgen commonNames _ _ (registered_common_spec fs path) _ _ hc
      rw [langs_fold_python fs path _ (detect_count_python fs path h2),
        registered_language_python_eq] at hl
      rw [foldlM_cons, except_bind_ok] at hl
      obtain ⟨rA, hA, hl⟩ := hl
      rw [check_pyproject_toml_invalid fs path r1 e h2 h3] at hA
      cases hA
      rw [foldlM_cons, except_bind_ok] at hl
      obtain ⟨rB, hB, hl⟩ := hl
      have sB := check_src_layout_spec fs path _ _ hB
      rw [foldlM_cons, except_bind_ok] at hl
      obtain ⟨rC, hC, hl⟩ := hl
      have sC := check_uv_lock_spec fs path _ _ hC
      rw [foldlM_cons, except_bind_ok] at hl
      obtain ⟨rD, hD, hl⟩ := hl
      rw [check_dependency_groups_invalid fs path _ e h2 h3] at hD
      cases hD
      rw [foldlM_cons, except_bind_ok] at hl
      obtain ⟨rE, hE, hl⟩ := hl
      rw [check_ruff_invalid fs path _ e h2 h3] at hE
      cases hE
      rw [foldlM_cons, except_bind_ok] at hl
      obtain ⟨rF, hF, hl⟩ := hl
      rw [check_ruff_lint_invalid fs path _ e h2 h3] at hF
      cases hF
      rw [foldlM_cons, except_bind_ok] at hl
      obtain ⟨rG, hG, hl⟩ := hl
      rw [check_mypy_invalid fs path _ e h2 h3] at hG
      cases hG
      rw [foldlM_cons, except_bind_ok] at hl
      obtain ⟨rH, hH, hl⟩ := hl
      have sH := check_python_precommit_hooks_spec fs path _ _ hH
      rw [foldlM_cons, except_bind_ok] at hl
      obtain ⟨rI, hI, hl⟩ := hl
      have sI := check_python_devbox_spec fs path _ _ hI
      rw [foldlM_cons, except_bind_ok] at hl
      obtain ⟨rJ, hJ, hl⟩ := hl
      have sJ := check_python_ci_spec fs path _ _ hJ
      rw [foldlM_nil] at hl
      cases hl
      have sTail : SpecRes c4OtherNames
          ((r1.add "pyproject.toml exists" Status.PASS "").add
            "pyproject.toml valid TOML" Status.FAIL ("Invalid TOML: " ++ e)) r :=
        specres_trans (specres_mono sB (by decide))
          (specres_trans (specres_mono sC (by decide))
            (specres_trans (specres_mono sH (by decide))
              (specres_trans (specres_mono sI (by decide)) (specres_mono sJ (by decide)))))
      have key : ∀ n, n ∉ commonNames → n ∉ c4OtherNames →
          countName r n = ((if ("pyproject.toml exists" == n) then 1 else 0)
            + (if ("pyproject.toml valid TOML" == n) then 1 else 0) : Nat) := by
        intro n hn1 hn2
        have e1 := specres_countName_eq sTail n hn2
        have e0 := specres_countName_eq s1 n hn1
        rw [e1]
        simp only [countName_add]
        rw [e0]
        simp only [countName, List.countP_nil]
        omega
      have key2 : ∀ n u, n ∉ commonNames → n ∉ c4OtherNames →
          countNameStatus r n u
            = ((if ("pyproject.toml exists" == n && Status.PASS == u) then 1 else 0)
              + (if ("pyproject.toml valid TOML" == n && Status.FAIL == u) then 1 else 0)
              : Nat) := by
        intro n u hn1 hn2
        have e1 := specres_countNameStatus_eq sTail n u hn2
        have e0 := specres_countNameStatus_eq s1 n u hn1
        rw [e1]
        simp only [countNameStatus_add]
        rw [e0]
        simp only [countNameStatus, List.countP_nil]
        omega
      refine ⟨?_, ?_, ?_, ?_, ?_⟩
      · rw [key _ (by decide) (by decide)]
        simp
      · rw [key2 _ Status.PASS (by decide) (by decide)]
        simp
      · rw [key _ (by decide) (by decide)]
        simp
      · rw [key2 _ Status.FAIL (by decide) (by decide)]
        simp
      · intro n hn
        fin_cases hn <;> (rw [key _ (by decide) (by decide)]; simp)

/-- Witness for C4 at the concrete project with an invalid manifest. -/
theorem c4_witness :
    fsPyBad.is_dir "proj" = true ∧
    fsPyBad.exists_ (pjoin "proj" "pyproject.toml") = true ∧
    fsPyBad.parse_toml (fsPyBad.read_text (pjoin "proj" "pyproject.toml"))
      = Except.error "bad" ∧
    verify_project fsPyBad "proj" = Except.ok rPyBad ∧
    (countName rPyBad "pyproject.toml exists" = 1 ∧
      countNameStatus rPyBad "pyproject.toml exists" Status.PASS = 1 ∧
      countName rPyBad "pyproject.toml valid TOML" = 1 ∧
      countNameStatus rPyBad "pyproject.toml valid TOML" Status.FAIL = 1 ∧
      (∀ n ∈ nestedManifestNames, countName rPyBad n = 0)) :=
  ⟨rfl, rfl, rfl, rfl, c4_invalid_manifest fsPyBad "proj" "bad" rPyBad rfl rfl rfl rfl⟩

/-- Witness for C2 at a concrete report holding a SKIP result. -/
theorem c2_witness :
    rSample.passed = rSample.results.countP (fun x => x.status == Status.PASS) ∧
    rSample.failed = rSample.results.countP (fun x => x.status == Status.FAIL) ∧
    rSample.warnings = rSample.results.countP (fun x => x.status == Status.WARN) ∧
    rSample.passed + rSample.failed + rSample.warnings ≤ rSample.results.length ∧
    (rSample.passed + rSample.failed + rSample.warnings = rSample.results.length ↔
      ∀ x ∈ rSample.results, x.status ≠ Status.SKIP) :=
  c2_report_counts rSample

/-- Witness for C8 at a concrete registry and procedure. -/
theorem c8_witness :
    (register_common 5 regSample).1 = 5 ∧
    (register_common 5 regSample).2.common = regSample.common ++ [5] ∧
    (register_common 5 regSample).2.language = regSample.language ∧
    run_all_checks
        (register_common (traced 3) (register_common (traced 3)
          (⟨[], fun _ => []⟩ : Registry (String → List (Nat × String)
            → Except PyErr (List (Nat × String))))).2).2.common
        (fun _ => []) "p" [] []
      = Except.ok [(3, "p"), (3, "p")] :=
  c8_register_common_identity 5 regSample 3 "p"

end Norms
